import Mathlib

/-!
# LuckyBasket backend — shallow embedding and verification

This file embeds the data model and the money/inventory-mutating operations of
the LuckyBasket backend (a food-bundle raffle marketplace) in Lean 4 and proves
properties of the embedding.

Sources embedded here:
* `MASTER_SCHEMA.sql` — tables (check constraints modelled as `Bool` predicates),
  the `buy_tickets_v2` and `execute_draw` PL/pgSQL procedures;
* `routes/wallet.js` — deposit and withdrawal settings fallbacks;
* `routes/webhooks.js` — the Flutterwave webhook endpoint and its
  charge-completed / transfer-completed / transfer-failed handlers;
* `routes/auth.js` — the email-verification endpoint;
* the tickets route (`POST /buy`) — quantity resolution from `slot_indices`
  and post-purchase slot binding;
* the admin routes — bundle-approval bounds and the settings read fallback;
* the draw scheduler — expiry sweep for timer draws.

Conventions: monetary amounts are `Rat` (SQL `DECIMAL` exact arithmetic),
identifiers (UUIDs) are `Nat`, timestamps are `Nat`, SQL `NULL`able columns are
`Option`. The MD5-based winner ordering is modelled by an arbitrary ranking
function `h : Nat → Nat` on ticket ids (the proved properties hold for every
ranking, in particular for the MD5 one). Database I/O failures and external
gateway outcomes, which are environmental inputs to the JS handlers, are
modelled as explicit parameters.
-/

namespace LuckyBasket

/-! ## Data model (tables of MASTER_SCHEMA.sql and the withdrawal_requests migration) -/

/-- `profiles` table row (the columns used by the embedded operations). -/
structure Profile where
  id : Nat
  email : String := ""
  full_name : String := ""
  role : String := "user"
  is_verified : Bool := false
  referred_by : Option Nat := none
  verification_token : Option String := none
  verification_expires : Option Nat := none
  deriving Repr, DecidableEq

/-- `wallets` table row. -/
structure Wallet where
  id : Nat
  user_id : Nat
  balance : Rat := 0
  vendor_balance : Rat := 0
  is_locked : Bool := false
  deriving Repr, DecidableEq

/-- `transactions` table row (the columns used by the embedded operations). -/
structure Txn where
  id : Nat
  user_id : Nat
  wallet_id : Nat
  type : String
  amount : Rat
  status : String
  reference : String
  external_reference : Option String := none
  balance_before : Option Rat := none
  balance_after : Option Rat := none
  completed_at : Option Nat := none
  deriving Repr, DecidableEq

/-- `draws` table row (the columns used by the embedded operations). -/
structure Draw where
  id : Nat
  vendor_id : Nat
  title : String := ""
  ticket_price : Rat := 0
  total_tickets : Nat := 0
  sold_tickets : Nat := 0
  draw_type : String := "slot_complete"
  status : String := "pending_review"
  draw_date : Option Nat := none
  winner_id : Option Nat := none
  winning_ticket_id : Option Nat := none
  completed_at : Option Nat := none
  deriving Repr, DecidableEq

/-- `tickets` table row; `slot_index` is the nullable visual-grid position
bound by the tickets route after purchase. -/
structure Ticket where
  id : Nat
  draw_id : Nat
  user_id : Nat
  ticket_number : String := ""
  transaction_id : Nat := 0
  is_winner : Bool := false
  slot_index : Option Nat := none
  deriving Repr, DecidableEq

/-- `referrals` table row. `referrer_bonus`/`referred_bonus` are nullable
decimals (the referral branch can write SQL `NULL` into them). -/
structure Referral where
  id : Nat
  referrer_id : Nat
  referred_id : Nat
  status : String := "pending"
  referrer_bonus : Option Rat := some 0
  referred_bonus : Option Rat := some 0
  first_purchase_at : Option Nat := none
  deriving Repr, DecidableEq

/-- `withdrawal_requests` table row. -/
structure WithdrawalRequest where
  id : Nat
  vendor_id : Nat
  transaction_id : Option Nat := none
  amount : Rat := 0
  status : String := "pending"
  admin_notes : String := ""
  processed_at : Option Nat := none
  deriving Repr, DecidableEq

/-- `notifications` table row. -/
structure Notification where
  user_id : Nat
  type : String
  title : String := ""
  message : String := ""
  deriving Repr, DecidableEq

/-- `draw_audit_log` row; the JSON `details` document is narrowed to the
numeric fields the audited procedures record. -/
structure AuditEntry where
  draw_id : Nat
  event_type : String
  actor_id : Option Nat := none
  quantity : Option Nat := none
  total_cost : Option Rat := none
  total_revenue : Option Rat := none
  platform_fee : Option Rat := none
  vendor_payout : Option Rat := none
  deriving Repr, DecidableEq

/-- The `platform_settings.settings` JSONB document: every key is optional
(absent keys read as SQL/JS null). -/
structure Settings where
  platformFee : Option Rat := none
  referralBonus : Option Rat := none
  referralBonusReferee : Option Rat := none
  referralPercentage : Option Rat := none
  minTicketPrice : Option Rat := none
  maxTicketPrice : Option Rat := none
  defaultTicketPrice : Option Rat := none
  minTicketsPerDraw : Option Nat := none
  maxTicketsPerDraw : Option Nat := none
  autoDrawOnFull : Option Bool := none
  maxTicketsPerPurchase : Option Nat := none
  minDeposit : Option Rat := none
  maxDeposit : Option Rat := none
  minWithdrawal : Option Rat := none
  withdrawalFee : Option Rat := none
  minBundlePrice : Option Rat := none
  maxBundlePrice : Option Rat := none
  deriving Repr, DecidableEq

/-- The whole relational store. `settings` is the singleton
`platform_settings` row (`none` = row absent). `nextId` supplies fresh UUIDs
and `ticket_seq` models the `ticket_number_seq` sequence. -/
structure DB where
  profiles : List Profile := []
  wallets : List Wallet := []
  transactions : List Txn := []
  draws : List Draw := []
  tickets : List Ticket := []
  referrals : List Referral := []
  withdrawal_requests : List WithdrawalRequest := []
  notifications : List Notification := []
  audit_log : List AuditEntry := []
  settings : Option Settings := none
  nextId : Nat := 1000
  ticket_seq : Nat := 100001
  deriving Repr, DecidableEq

/-! ## Check constraints (from the CREATE TABLE statements) -/

/-- `notifications.type` CHECK constraint:
`type IN ('welcome','referral','wallet','ticket','win','draw','kyc','system')`. -/
def notificationTypeAllowed (t : String) : Bool :=
  t == "welcome" || t == "referral" || t == "wallet" || t == "ticket" ||
  t == "win" || t == "draw" || t == "kyc" || t == "system"

/-- `withdrawal_requests.status` CHECK constraint:
`status IN ('pending','approved','rejected','processing')`. -/
def withdrawalStatusAllowed (s : String) : Bool :=
  s == "pending" || s == "approved" || s == "rejected" || s == "processing"

/-- An INSERT into `notifications` goes through the type check constraint: a
row with a type outside the allowed set is rejected by the store and no row is
created. -/
def insertNotification (db : DB) (n : Notification) : DB :=
  if notificationTypeAllowed n.type then
    { db with notifications := db.notifications ++ [n] }
  else
    db

/-- An UPDATE of a `withdrawal_requests` row's status goes through the status
check constraint: setting a status outside the allowed set is rejected by the
store and the row is left unchanged. The row is addressed by `transaction_id`
as in the webhook handlers (`.eq('transaction_id', tx.id)`). -/
def updateWithdrawalRequestStatus (db : DB) (txId : Nat) (newStatus : String)
    (processedAt : Option Nat) : DB :=
  if withdrawalStatusAllowed newStatus then
    { db with withdrawal_requests := db.withdrawal_requests.map (fun r =>
        if r.transaction_id == some txId then
          { r with status := newStatus,
                   processed_at := processedAt.orElse (fun _ => r.processed_at) }
        else r) }
  else
    db

/-! ## Small query helpers -/

/-- First wallet row of a user (`SELECT * FROM wallets WHERE user_id = _`). -/
def findWallet (db : DB) (uid : Nat) : Option Wallet :=
  db.wallets.find? (fun w => w.user_id == uid)

/-- Draw row by id. -/
def findDraw (db : DB) (did : Nat) : Option Draw :=
  db.draws.find? (fun d => d.id == did)

/-- Profile row by id. -/
def findProfile (db : DB) (uid : Nat) : Option Profile :=
  db.profiles.find? (fun p => p.id == uid)

/-- Spendable balance of a user's wallet, if the wallet exists. -/
def balanceOf (db : DB) (uid : Nat) : Option Rat :=
  (findWallet db uid).map (fun w => w.balance)

/-- Vendor-earnings balance of a user's wallet, if the wallet exists. -/
def vendorBalanceOf (db : DB) (uid : Nat) : Option Rat :=
  (findWallet db uid).map (fun w => w.vendor_balance)

/-- `sold_tickets` of a draw, if the draw exists. -/
def soldOf (db : DB) (did : Nat) : Option Nat :=
  (findDraw db did).map (fun d => d.sold_tickets)

/-- The tickets belonging to a draw. -/
def ticketsOfDraw (db : DB) (did : Nat) : List Ticket :=
  db.tickets.filter (fun t => t.draw_id == did)

/-! ## JS `||` default (0 and absent are both falsy) -/

/-- JavaScript `x || d` on an optional numeric config key: absent and `0` both
fall through to the default. -/
def jsOrRat (v : Option Rat) (d : Rat) : Rat :=
  match v with
  | none => d
  | some x => if x = 0 then d else x

/-- JavaScript `x || d` on an optional integer config key. -/
def jsOrNat (v : Option Nat) (d : Nat) : Nat :=
  match v with
  | none => d
  | some x => if x = 0 then d else x

/-! ## Settings fallbacks of the individual handlers (claim C5)

Each HTTP handler re-reads `platform_settings` and substitutes its own literal
fallback object when the row is absent, then applies a further `|| literal`
default per key. These are embedded per handler, exactly as written. -/

/-- `POST /api/wallet/initialize-payment`: the handler's effective config
(`settingsRow?.settings || { minDeposit: 100, maxDeposit: 1000000 }`). -/
def depositConfig (row : Option Settings) : Settings :=
  match row with
  | some c => c
  | none => { minDeposit := some 100, maxDeposit := some 1000000 }

/-- Deposit lower bound handed to `validateAmount`
(`min: config.minDeposit || 100`). -/
def depositMinBound (row : Option Settings) : Rat :=
  jsOrRat (depositConfig row).minDeposit 100

/-- Deposit upper bound handed to `validateAmount`
(`max: config.maxDeposit || 1000000`). -/
def depositMaxBound (row : Option Settings) : Rat :=
  jsOrRat (depositConfig row).maxDeposit 1000000

/-- `POST /api/wallet/withdraw`: the handler's effective config
(`settingsRow?.settings || { minWithdrawal: 1000, withdrawalFee: 100 }`). -/
def withdrawConfig (row : Option Settings) : Settings :=
  match row with
  | some c => c
  | none => { minWithdrawal := some 1000, withdrawalFee := some 100 }

/-- Withdrawal lower bound handed to `validateAmount`
(`min: config.minWithdrawal || 1000`). -/
def withdrawMinBound (row : Option Settings) : Rat :=
  jsOrRat (withdrawConfig row).minWithdrawal 1000

/-- Withdrawal fee added to the debited total
(`amount + (config.withdrawalFee || 0)`). -/
def withdrawFeeApplied (row : Option Settings) : Rat :=
  jsOrRat (withdrawConfig row).withdrawalFee 0

/-- Tickets route `POST /buy`: the handler's effective config
(`settingsRow?.settings || { maxTicketsPerPurchase: 50 }`). -/
def purchaseRouteConfig (row : Option Settings) : Settings :=
  match row with
  | some c => c
  | none => { maxTicketsPerPurchase := some 50 }

/-- Per-purchase quantity cap enforced by the tickets route
(`config.maxTicketsPerPurchase || 50`). -/
def purchaseRouteCap (row : Option Settings) : Nat :=
  jsOrNat (purchaseRouteConfig row).maxTicketsPerPurchase 50

/-- Admin bundle-approval endpoint: the handler's effective config
(`settingsRow?.settings || { minTicketsPerDraw: 10, maxTicketsPerDraw: 10000,
minTicketPrice: 100, maxTicketPrice: 50000 }`). -/
def approveConfig (row : Option Settings) : Settings :=
  match row with
  | some c => c
  | none => { minTicketsPerDraw := some 10, maxTicketsPerDraw := some 10000,
              minTicketPrice := some 100, maxTicketPrice := some 50000 }

/-- `GET /api/admin/settings`: the literal default document returned when the
settings row is absent or unreadable. -/
def adminSettingsFallback : Settings :=
  { platformFee := some 15
    referralBonus := some 1000
    referralPercentage := some 10
    minTicketPrice := some 500
    maxTicketPrice := some 5000
    defaultTicketPrice := some 1000
    maxTicketsPerDraw := some 1000
    minTicketsPerDraw := some 10
    autoDrawOnFull := some true
    maxTicketsPerPurchase := some 50
    minDeposit := some 1000
    minWithdrawal := some 5000
    withdrawalFee := some 100
    minBundlePrice := some 50000
    maxBundlePrice := some 500000 }

/-- `GET /api/admin/settings` response body. -/
def adminSettingsResponse (row : Option Settings) : Settings :=
  match row with
  | some c => c
  | none => adminSettingsFallback

/-! ## execute_draw (MASTER_SCHEMA.sql, §8.3) -/

/-- Fee-percent resolution in `execute_draw`:
`SELECT settings INTO v_settings FROM platform_settings WHERE id = 1;`
`v_platform_fee_percent := COALESCE((v_settings->>'platformFee')::decimal, 15.0)`
— with an absent row the JSON extraction yields null and the COALESCE
produces 15.0; the surrounding EXCEPTION handler also falls back to 15.0. -/
def resolvePlatformFeePercent (row : Option Settings) : Rat :=
  match row with
  | none => 15
  | some c => c.platformFee.getD 15

/-- `ORDER BY md5(id::text || v_random_seed::text) LIMIT 1` over the draw's
tickets: the first ticket under the ranking `h` of ticket ids (the MD5 hash
with the fresh seed folded in). -/
def selectWinner (h : Nat → Nat) : List Ticket → Option Ticket
  | [] => none
  | t :: ts => some (ts.foldl (fun best x => if h x.id < h best.id then x else best) t)

/-- Result document of `execute_draw` in the success case. -/
structure ExecInfo where
  winner_id : Nat
  winning_ticket_id : Nat
  winning_ticket_number : String
  total_tickets : Nat
  total_revenue : Rat
  platform_fee : Rat
  vendor_payout : Rat
  deriving Repr, DecidableEq

/-- `jsonb_build_object('success', ...)` result of `execute_draw`. -/
inductive ExecResult where
  | failure (message : String)
  | success (info : ExecInfo)
  deriving Repr, DecidableEq

/-- The vendor-credit block of `execute_draw`: lock the vendor's wallet, add
the payout to `vendor_balance` and record a completed `payout` transaction.
`IF FOUND` — skipped silently when the vendor has no wallet row. -/
def creditVendor (now : Nat) (db : DB) (d : Draw) (payout : Rat) : DB :=
  match findWallet db d.vendor_id with
  | none => db
  | some vw =>
    let prev := vw.vendor_balance
    let nb := prev + payout
    { db with
      wallets := db.wallets.map (fun w =>
        if w.id == vw.id then { w with vendor_balance := nb } else w),
      transactions := db.transactions ++ [{
        id := db.nextId, user_id := d.vendor_id, wallet_id := vw.id,
        type := "payout", amount := payout, status := "completed",
        reference := "PAYOUT_" ++ toString db.nextId,
        balance_before := some prev, balance_after := some nb,
        completed_at := some now }],
      nextId := db.nextId + 1 }

/-- `execute_draw(_draw_id)`: winner selection and vendor payout. `h` ranks
ticket ids (standing in for `md5(id || seed)` with the per-execution seed). -/
def executeDraw (h : Nat → Nat) (now : Nat) (db : DB) (drawId : Nat) :
    ExecResult × DB :=
  match findDraw db drawId with
  | none => (.failure "Draw not found", db)
  | some d =>
    if d.status == "completed" then (.failure "Draw already completed", db)
    else if d.status == "cancelled" then (.failure "Draw is cancelled", db)
    else if d.sold_tickets == 0 then (.failure "No tickets sold for this draw", db)
    else
      match selectWinner h (ticketsOfDraw db drawId) with
      | none => (.failure "No tickets found for this draw", db)
      | some wt =>
        let feePct := resolvePlatformFeePercent db.settings
        let revenue : Rat := (d.sold_tickets : Rat) * d.ticket_price
        let fee := revenue * (feePct / 100)
        let payout := revenue - fee
        let db1 : DB := creditVendor now db d payout
        let db2 : DB := { db1 with tickets := db1.tickets.map (fun t =>
          if t.id == wt.id then { t with is_winner := true } else t) }
        let db3 : DB := { db2 with draws := db2.draws.map (fun x =>
          if x.id == drawId then
            { x with status := "completed", winner_id := some wt.user_id,
                     winning_ticket_id := some wt.id, completed_at := some now }
          else x) }
        let db4 : DB := { db3 with audit_log := db3.audit_log ++ [
          { draw_id := drawId, event_type := "draw_executed",
            total_revenue := some revenue, platform_fee := some fee,
            vendor_payout := some payout },
          { draw_id := drawId, event_type := "winner_selected",
            actor_id := some wt.user_id }] }
        (.success {
          winner_id := wt.user_id, winning_ticket_id := wt.id,
          winning_ticket_number := wt.ticket_number,
          total_tickets := d.sold_tickets, total_revenue := revenue,
          platform_fee := fee, vendor_payout := payout }, db4)

/-! ## buy_tickets_v2 (MASTER_SCHEMA.sql, §8.4) -/

/-- Per-purchase cap resolution in `buy_tickets_v2`:
`SELECT (settings->>'maxTicketsPerPurchase')::INTEGER INTO v_max ...;`
`IF v_max IS NULL THEN v_max := 50` — absent row or absent key both give 50,
as does the EXCEPTION fallback. -/
def resolveMaxTicketsPerPurchase (row : Option Settings) : Nat :=
  match row with
  | none => 50
  | some c => c.maxTicketsPerPurchase.getD 50

/-- SQL `x > 0` on a nullable decimal: null compares as unknown (falsy). -/
def ratOptPos (v : Option Rat) : Bool :=
  match v with
  | none => false
  | some x => decide (0 < x)

/-- Outcome of the referral phase, capturing the final values of
`v_new_balance`, `referral_bonus_credited`-relevant `v_referrer_bonus`
(`none` models the SQL NULL left behind by a row-less `SELECT INTO`) and
`v_referee_bonus`. -/
structure ReferralOutcome where
  db : DB
  new_balance : Rat
  referrer_bonus : Option Rat
  referee_bonus : Option Rat
  deriving Repr, DecidableEq

/-- The referral-bonus block of `buy_tickets_v2` (run after the core purchase
mutation): if the buyer's profile has `referred_by` and no completed
`purchase` transaction other than the current one exists, read the bonus
amounts from `platform_settings` (a row-less `SELECT INTO` leaves them NULL),
credit referrer and referee wallets (each guarded by `bonus > 0`, the referrer
credit also by wallet existence), record a completed `bonus` transaction for
each credit, and flip the `referrals` row of the buyer to completed. -/
def referralPhase (now : Nat) (db : DB) (userId walletId txnId : Nat)
    (newBalance : Rat) : ReferralOutcome :=
  match findProfile db userId with
  | none => { db := db, new_balance := newBalance,
              referrer_bonus := some 0, referee_bonus := some 0 }
  | some prof =>
    match prof.referred_by with
    | none => { db := db, new_balance := newBalance,
                referrer_bonus := some 0, referee_bonus := some 0 }
    | some refId =>
      if db.transactions.any (fun t =>
          t.user_id == userId && t.type == "purchase" &&
          t.status == "completed" && t.id != txnId) then
        { db := db, new_balance := newBalance,
          referrer_bonus := some 0, referee_bonus := some 0 }
      else
        let referrerBonus : Option Rat :=
          db.settings.map (fun c => c.referralBonus.getD 500)
        let refereeBonus : Option Rat :=
          db.settings.map (fun c => c.referralBonusReferee.getD 500)
        let referrerWalletId : Option Nat :=
          (db.wallets.find? (fun w => w.user_id == refId)).map (fun w => w.id)
        let db1 : DB :=
          match referrerWalletId with
          | some rwid =>
            if ratOptPos referrerBonus then
              let b := referrerBonus.getD 0
              { db with
                wallets := db.wallets.map (fun w =>
                  if w.id == rwid then { w with balance := w.balance + b } else w),
                transactions := db.transactions ++ [{
                  id := db.nextId, user_id := refId, wallet_id := rwid,
                  type := "bonus", amount := b, status := "completed",
                  reference := "REF_" ++ toString db.nextId,
                  completed_at := some now }],
                nextId := db.nextId + 1 }
            else db
          | none => db
        let out2 : DB × Rat :=
          if ratOptPos refereeBonus then
            let b := refereeBonus.getD 0
            ({ db1 with
               wallets := db1.wallets.map (fun w =>
                 if w.id == walletId then { w with balance := w.balance + b } else w),
               transactions := db1.transactions ++ [{
                 id := db1.nextId, user_id := userId, wallet_id := walletId,
                 type := "bonus", amount := b, status := "completed",
                 reference := "WELCOME_" ++ toString db1.nextId,
                 completed_at := some now }],
               nextId := db1.nextId + 1 }, newBalance + b)
          else (db1, newBalance)
        let db3 : DB := { out2.1 with referrals := out2.1.referrals.map (fun r =>
          if r.referred_id == userId then
            { r with status := "completed", referrer_bonus := referrerBonus,
                     referred_bonus := refereeBonus,
                     first_purchase_at := some now }
          else r) }
        { db := db3, new_balance := out2.2,
          referrer_bonus := referrerBonus, referee_bonus := refereeBonus }

/-- Result document of `buy_tickets_v2` in the success case. -/
structure BuyInfo where
  ticketIds : List Nat
  transactionId : Nat
  total_cost : Rat
  new_balance : Rat
  draw_completed : Bool
  referral_bonus_credited : Bool
  bonus_referrer : Option Rat
  bonus_referee : Option Rat
  deriving Repr, DecidableEq

/-- `jsonb_build_object` result of `buy_tickets_v2`. -/
inductive BuyResult where
  | failure (error : String)
  | success (info : BuyInfo)
  deriving Repr, DecidableEq

/-- The freshly issued tickets of one purchase: ids `baseId .. baseId+q-1`,
numbers from the `ticket_number_seq` sequence. -/
def mkTickets (drawId userId txnId baseId seqStart q : Nat) : List Ticket :=
  (List.range q).map (fun i =>
    { id := baseId + i, draw_id := drawId, user_id := userId,
      ticket_number := "LB-" ++ toString (seqStart + i),
      transaction_id := txnId, is_winner := false, slot_index := none })

/-- The freshly issued purchase transaction of `buy_tickets_v2` (completed
`purchase` row with before/after balances). -/
def purchaseTxn (now : Nat) (db : DB) (userId : Nat) (d : Draw) (w : Wallet)
    (q : Nat) : Txn :=
  { id := db.nextId, user_id := userId, wallet_id := w.id,
    type := "purchase", amount := d.ticket_price * (q : Rat),
    status := "completed", reference := "TKT_" ++ toString db.nextId,
    balance_before := some w.balance,
    balance_after := some (w.balance - d.ticket_price * (q : Rat)),
    completed_at := some now }

/-- The core mutation of `buy_tickets_v2` after validation: debit the wallet,
insert the completed `purchase` transaction, issue the `q` tickets from the
sequence, advance `sold_tickets` and append the `tickets_purchased` audit
entry — all in the same atomic store operation. -/
def purchaseMutation (now : Nat) (db : DB) (userId drawId q : Nat)
    (d : Draw) (w : Wallet) : DB :=
  let cost := d.ticket_price * (q : Rat)
  let newBalance := w.balance - cost
  let txnId := db.nextId
  { db with
    wallets := db.wallets.map (fun x =>
      if x.id == w.id then { x with balance := newBalance } else x),
    transactions := db.transactions ++ [purchaseTxn now db userId d w q],
    tickets := db.tickets ++ mkTickets drawId userId txnId (txnId + 1) db.ticket_seq q,
    draws := db.draws.map (fun x =>
      if x.id == drawId then { x with sold_tickets := d.sold_tickets + q } else x),
    audit_log := db.audit_log ++ [{
      draw_id := drawId, event_type := "tickets_purchased",
      actor_id := some userId, quantity := some q,
      total_cost := some cost }],
    nextId := txnId + 1 + q,
    ticket_seq := db.ticket_seq + q }

/-- The post-validation body of `buy_tickets_v2`: the core mutation, then the
best-effort referral phase, then the auto-execution of a filled
`slot_complete` draw, and the JSON result document. -/
def buyCore (h : Nat → Nat) (now : Nat) (db : DB) (userId drawId q : Nat)
    (d : Draw) (w : Wallet) : BuyResult × DB :=
  let cost := d.ticket_price * (q : Rat)
  let txnId := db.nextId
  let db1 := purchaseMutation now db userId drawId q d w
  let ro := referralPhase now db1 userId w.id txnId (w.balance - cost)
  let fin :=
    if d.draw_type == "slot_complete" && (d.sold_tickets + q ≥ d.total_tickets) then
      ((executeDraw h now ro.db drawId).2, true)
    else (ro.db, false)
  (.success {
    ticketIds := (mkTickets drawId userId txnId (txnId + 1) db.ticket_seq q).map
      (fun t => t.id),
    transactionId := txnId, total_cost := cost,
    new_balance := ro.new_balance, draw_completed := fin.2,
    referral_bonus_credited :=
      ((findProfile db1 userId).bind (fun p => p.referred_by)).isSome
        && ratOptPos ro.referrer_bonus,
    bonus_referrer := ro.referrer_bonus,
    bonus_referee := ro.referee_bonus }, fin.1)

/-- `buy_tickets_v2(_user_id, _draw_id, _quantity)`: the atomic multi-ticket
purchase. Every rejection happens before any mutation, so a failure returns
the store untouched. `h` is the ticket ranking used if the purchase fills a
`slot_complete` draw and `execute_draw` fires in the same call. -/
def buyTicketsV2 (h : Nat → Nat) (now : Nat) (db : DB)
    (userId drawId q : Nat) : BuyResult × DB :=
  let cap := resolveMaxTicketsPerPurchase db.settings
  if q < 1 || q > cap then
    (.failure "Quantity out of range", db)
  else
    match findDraw db drawId with
    | none => (.failure "Draw not found", db)
    | some d =>
      if d.status != "active" then
        (.failure "This draw is no longer active", db)
      else if d.vendor_id == userId then
        (.failure "Vendors cannot participate in their own bundle", db)
      else if d.sold_tickets + q > d.total_tickets then
        (.failure "Not enough tickets available", db)
      else
        match findWallet db userId with
        | none => (.failure "Wallet not found", db)
        | some w =>
          if w.balance < d.ticket_price * (q : Rat) then
            (.failure "Insufficient wallet balance", db)
          else if w.is_locked then
            (.failure "Wallet is locked", db)
          else
            buyCore h now db userId drawId q d w

/-! ## Flutterwave webhook processor (routes/webhooks.js) -/

/-- Normalized fields of a charge event used by `handleChargeCompleted`. -/
structure ChargeEvent where
  id : Nat
  tx_ref : Option String := none
  amount : Rat := 0
  status : String := ""
  customer_email : Option String := none
  meta_user_id : Option Nat := none
  deriving Repr, DecidableEq

/-- Environmental inputs of the webhook route: the configured shared secret,
whether the gateway key is a TEST key, the outcome of the outbound
`verifyTransaction` call, and whether the wallet-credit UPDATE fails. -/
structure WebhookEnv where
  webhook_secret : Option String := none
  secret_key_is_test : Bool := false
  verify_result : Option ChargeEvent := none
  wallet_update_fails : Bool := false
  deriving Repr, DecidableEq

/-- `verifyWebhookSignature` (services/flutterwave.js): exact match against
`FLW_WEBHOOK_SECRET`; with no secret configured every webhook is rejected. -/
def verifyWebhookSignature (secret : Option String) (webhookHash : String) : Bool :=
  match secret with
  | none => false
  | some s => webhookHash == s

/-- `handleChargeCompleted`: verify the charge with the gateway (falling back
to the webhook payload only in TEST mode), resolve the owning user by pending
transaction / checkout metadata / customer email, guard idempotency by
reference status and by gateway transaction id, then credit the wallet and
complete-or-insert the `topup` transaction. The wallet-credit UPDATE failure
is the one path that rethrows (`throw updateError`). -/
def handleChargeCompleted (env : WebhookEnv) (now : Nat) (db : DB)
    (data : ChargeEvent) : Except String DB :=
  -- Verification step.
  match env.verify_result with
  | none =>
    if !env.secret_key_is_test then .ok db   -- LIVE mode: abort, no credit
    else chargeCreditFlow env now db data data.amount (data.tx_ref.orElse (fun _ => data.tx_ref))
  | some vd =>
    chargeCreditFlow env now db data vd.amount (vd.tx_ref.orElse (fun _ => data.tx_ref))
where
  /-- User resolution, idempotency guards, and the credit itself. -/
  chargeCreditFlow (env : WebhookEnv) (now : Nat) (db : DB) (data : ChargeEvent)
      (verifiedAmount : Rat) (effRef : Option String) : Except String DB :=
    -- 1. PRIMARY: by reference among existing transactions.
    let byRef : Option Txn := effRef.bind (fun r =>
      db.transactions.find? (fun t => t.reference == r))
    if (byRef.map (fun t => t.status)) = some "completed" then
      .ok db   -- already processed (idempotent)
    else
      -- 2./3. metadata user id, then customer email.
      let userId : Option Nat :=
        (byRef.map (fun t => t.user_id)).orElse (fun _ =>
          ((data.meta_user_id.bind (fun m =>
              (db.wallets.find? (fun w => w.user_id == m)).map (fun w => w.user_id))).orElse
            (fun _ => data.customer_email.bind (fun e =>
              (db.profiles.find? (fun p => p.email == e)).map (fun p => p.id)))))
      match userId with
      | none => .ok db       -- user not found: log and abort
      | some uid =>
        match findWallet db uid with
        | none => .ok db     -- wallet not found: log and abort
        | some w =>
          -- Idempotency by gateway transaction id.
          if (db.transactions.any (fun t =>
              t.wallet_id == w.id && t.external_reference == some (toString data.id) &&
              t.status == "completed")) then
            .ok db
          else
            if env.wallet_update_fails then
              .error "wallet update failed"   -- `throw updateError`
            else
              let prev := w.balance
              let nb := prev + verifiedAmount
              let db1 : DB := { db with wallets := db.wallets.map (fun x =>
                if x.id == w.id then { x with balance := nb } else x) }
              let pending : Option Txn := effRef.bind (fun r =>
                db1.transactions.find? (fun t => t.reference == r && t.status == "pending"))
              let db2 : DB :=
                match pending with
                | some pt =>
                  { db1 with transactions := db1.transactions.map (fun t =>
                    if t.id == pt.id then
                      { t with status := "completed", amount := verifiedAmount,
                               external_reference := some (toString data.id),
                               balance_before := some prev, balance_after := some nb,
                               completed_at := some now }
                    else t) }
                | none =>
                  let newTopup : Txn := {
                    id := db1.nextId, user_id := uid, wallet_id := w.id,
                    type := "topup", amount := verifiedAmount, status := "completed",
                    reference := effRef.getD ("FLW_" ++ toString data.id),
                    external_reference := some (toString data.id),
                    balance_before := some prev, balance_after := some nb,
                    completed_at := some now }
                  { db1 with transactions := db1.transactions ++ [newTopup],
                             nextId := db1.nextId + 1 }
              .ok (insertNotification db2
                { user_id := uid, type := "wallet", title := "Wallet Funded" })

/-- `handleTransferCompleted`: locate the `withdrawal` transaction by
reference, no-op if already completed, otherwise mark it completed and mirror
the completion onto the paired `withdrawal_requests` row (an UPDATE that must
pass the table's status check constraint), then notify the vendor. -/
def handleTransferCompleted (now : Nat) (db : DB) (reference : Option String) : DB :=
  match reference with
  | none => db
  | some r =>
    match db.transactions.find? (fun t => t.reference == r && t.type == "withdrawal") with
    | none => db
    | some tx =>
      if tx.status == "completed" then db
      else
        let db1 : DB := { db with transactions := db.transactions.map (fun t =>
          if t.id == tx.id then
            { t with status := "completed", completed_at := some now }
          else t) }
        let db2 := updateWithdrawalRequestStatus db1 tx.id "completed" (some now)
        insertNotification db2
          { user_id := tx.user_id, type := "wallet", title := "Withdrawal Successful" }

/-- `handleTransferFailed`: locate the `withdrawal` transaction by reference;
deliberately no auto-refund — mark the paired `withdrawal_requests` row
`failed` (an UPDATE that must pass the status check constraint), mark the
transaction `failed`, and notify the vendor. -/
def handleTransferFailed (db : DB) (reference : Option String) : DB :=
  match reference with
  | none => db
  | some r =>
    match db.transactions.find? (fun t => t.reference == r && t.type == "withdrawal") with
    | none => db
    | some tx =>
      let db1 := updateWithdrawalRequestStatus db tx.id "failed" none
      let db2 : DB := { db1 with transactions := db1.transactions.map (fun t =>
        if t.id == tx.id then { t with status := "failed" } else t) }
      insertNotification db2
        { user_id := tx.user_id, type := "wallet", title := "Withdrawal Failed" }

/-- One inbound webhook request after body normalization. -/
structure WebhookReq where
  verif_hash : Option String := none
  event : Option String := none
  data : ChargeEvent := { id := 0 }
  deriving Repr, DecidableEq

/-- `POST /api/webhooks/flutterwave`: reject with 401 unless the `verif-hash`
header matches the configured secret; dispatch by event name; respond 200 when
dispatch returns, 500 when the dispatched handler throws (the route's
catch-all). Returns the HTTP status and the resulting store. -/
def webhookDispatch (env : WebhookEnv) (now : Nat) (db : DB) (req : WebhookReq) :
    Except String DB :=
  if req.event == some "charge.completed" ||
     req.event == some "BANK_TRANSFER_TRANSACTION" ||
     req.event == some "CARD_TRANSACTION" then
    if req.data.status == "successful" then
      handleChargeCompleted env now db req.data
    else .ok db
  else if req.event == some "transfer.completed" ||
          req.event == some "TRANSFER_COMPLETED" then
    .ok (handleTransferCompleted now db req.data.tx_ref)
  else if req.event == some "transfer.failed" ||
          req.event == some "TRANSFER_FAILED" then
    .ok (handleTransferFailed db req.data.tx_ref)
  else .ok db   -- unhandled event type: log and ignore

def webhookPost (env : WebhookEnv) (now : Nat) (db : DB) (req : WebhookReq) :
    Nat × DB :=
  match req.verif_hash with
  | none => (401, db)
  | some hsh =>
    if !verifyWebhookSignature env.webhook_secret hsh then (401, db)
    else
      match webhookDispatch env now db req with
      | .ok db' => (200, db')
      | .error _ => (500, db)

/-! ## Draw scheduler (services/drawScheduler.js) -/

/-- `draw_date <= now` filter (`.lte('draw_date', ...)`; SQL null never
satisfies the comparison). -/
def drawDatePassed (d : Draw) (now : Nat) : Bool :=
  match d.draw_date with
  | none => false
  | some t => t ≤ now

/-- One expired draw handled by the scheduler sweep: zero tickets sold →
cancel with a completion timestamp; otherwise call `execute_draw` and, on
success, insert the winner notification the scheduler builds — with
`type: 'draw_won'`, which must pass the notifications type check constraint. -/
def schedulerHandleDraw (h : Nat → Nat) (now : Nat) (db : DB) (d : Draw) : DB :=
  if d.sold_tickets == 0 then
    { db with draws := db.draws.map (fun x =>
        if x.id == d.id then
          { x with status := "cancelled", completed_at := some now }
        else x) }
  else
    let r := executeDraw h now db d.id
    match r.1 with
    | .success info =>
      insertNotification r.2
        { user_id := info.winner_id, type := "draw_won", title := "You Won!" }
    | .failure _ => r.2

/-- One scheduler tick: select all `active` `timer` draws whose `draw_date`
has passed and handle each in turn. -/
def schedulerTick (h : Nat → Nat) (now : Nat) (db : DB) : DB :=
  let expired := db.draws.filter (fun d =>
    d.status == "active" && d.draw_type == "timer" && drawDatePassed d now)
  expired.foldl (fun acc d => schedulerHandleDraw h now acc d) db

/-! ## Email verification endpoint (routes/auth.js, GET /verify-email/:token) -/

/-- Outcome of the email-verification endpoint. -/
inductive VerifyEmailOutcome where
  | invalidToken       -- no profile holds the token
  | alreadyVerified    -- no-op success
  | expired            -- token expiry has passed
  | verified           -- flag flipped, token cleared
  deriving Repr, DecidableEq

/-- HTTP status the endpoint returns for each outcome. -/
def verifyEmailStatus : VerifyEmailOutcome → Nat
  | .invalidToken => 400
  | .alreadyVerified => 200
  | .expired => 400
  | .verified => 200

/-- `GET /api/auth/verify-email/:token`: look the token up among profiles;
unknown token → `400 Invalid or expired verification token`; already verified
→ no-op success; expired (`new Date(expires) < new Date()`, with a null expiry
reading as the epoch) → 400; otherwise set `is_verified` and clear the token
and expiry. -/
def verifyEmail (token : String) (now : Nat) (profiles : List Profile) :
    VerifyEmailOutcome × List Profile :=
  match profiles.find? (fun p => p.verification_token == some token) with
  | none => (.invalidToken, profiles)
  | some p =>
    if p.is_verified then (.alreadyVerified, profiles)
    else if p.verification_expires.getD 0 < now then (.expired, profiles)
    else (.verified, profiles.map (fun q =>
      if q.id == p.id then
        { q with is_verified := true, verification_token := none,
                 verification_expires := none }
      else q))

/-! ## Tickets route (POST /buy): slot-driven quantity and slot binding -/

/-- Request body of `POST /api/tickets/buy`. `quantity` defaults to 1 by
destructuring; `slot_indices` is `some` exactly when the body supplies it as
an array. -/
structure BuyRequest where
  draw_id : Option Nat := none
  quantity : Nat := 1
  slot_indices : Option (List Nat) := none
  deriving Repr, DecidableEq

/-- `const qty = slot_indices && Array.isArray(slot_indices)
? slot_indices.length : parseInt(quantity)`. -/
def routeQty (req : BuyRequest) : Nat :=
  match req.slot_indices with
  | some l => l.length
  | none => req.quantity

/-- Result of the route: the quantity actually passed to `buy_tickets_v2`
(`none` when the RPC was never reached), the HTTP status, and the store. -/
structure BuyRouteResult where
  rpcQuantity : Option Nat
  status : Nat
  db : DB
  deriving Repr, DecidableEq

/-- The post-success slot binding: `for i < tickets.length && i < slots.length`
set `slot_index` of ticket `tickets[i]` to `slots[i]`. -/
def applySlotBindings (db : DB) (pairs : List (Nat × Nat)) : DB :=
  pairs.foldl (fun acc pr =>
    { acc with tickets := acc.tickets.map (fun t =>
        if t.id == pr.1 then { t with slot_index := some pr.2 } else t) }) db

/-- The slot-selection validation of `POST /buy`: duplicate requested slots,
or a requested slot already taken by a ticket of the draw. -/
def slotConflict (db : DB) (drawId : Nat) (slots : Option (List Nat)) : Bool :=
  match slots with
  | none => false
  | some l =>
    !l.Nodup ||
    db.tickets.any (fun t => t.draw_id == drawId &&
      (match t.slot_index with
       | some s => l.contains s
       | none => false))

/-- `POST /api/tickets/buy`: quantity resolution, duplicate- and taken-slot
validation, the `buy_tickets_v2` RPC call, and the positional slot binding
applied only after the RPC reports success. -/
def buyRoute (h : Nat → Nat) (now : Nat) (db : DB) (userId : Nat)
    (req : BuyRequest) : BuyRouteResult :=
  match req.draw_id with
  | none => { rpcQuantity := none, status := 400, db := db }
  | some drawId =>
    let cap := purchaseRouteCap db.settings
    let qty := routeQty req
    if qty < 1 || qty > cap then
      { rpcQuantity := none, status := 400, db := db }
    else
      if slotConflict db drawId req.slot_indices then
        { rpcQuantity := none, status := 400, db := db }
      else
        let r := buyTicketsV2 h now db userId drawId qty
        match r.1 with
        | .failure _ => { rpcQuantity := some qty, status := 400, db := r.2 }
        | .success info =>
          let db2 :=
            match req.slot_indices with
            | some l => applySlotBindings r.2 (info.ticketIds.zip l)
            | none => r.2
          { rpcQuantity := some qty, status := 200, db := db2 }


/-! ## General helper lemmas -/

/-- `find?` commutes with a map that does not change the predicate's verdict. -/
theorem find?_map_pres {α : Type} (g : α → α) (p : α → Bool)
    (hp : ∀ a, p (g a) = p a) :
    ∀ l : List α, (l.map g).find? p = (l.find? p).map g := by
  intro l
  induction l with
  | nil => rfl
  | cons a t ih =>
    by_cases h : p a = true
    · simp [List.find?, hp a, h]
    · have h' : p a = false := by simp at h; simp [h]
      simp [List.find?, hp a, h', ih]

/-- `countP` is invariant under a map that does not change the predicate's
verdict. -/
theorem countP_map_pres {α : Type} (g : α → α) (p : α → Bool)
    (hp : ∀ a, p (g a) = p a) :
    ∀ l : List α, (l.map g).countP p = l.countP p := by
  intro l
  induction l with
  | nil => rfl
  | cons a t ih => simp [List.countP_cons, hp a, ih]

/-- The length of a filter is invariant under a map that does not change the
predicate's verdict. -/
theorem filter_map_pres_length {α : Type} (g : α → α) (p : α → Bool)
    (hp : ∀ a, p (g a) = p a) (l : List α) :
    ((l.map g).filter p).length = (l.filter p).length := by
  simp only [← List.countP_eq_length_filter]
  exact countP_map_pres g p hp l

/-! ## Theorems for the settings-fallback claim -/

/-- **C5, counterexample.** The claim "with the `platform_settings` row absent
every bounded operation enforces the §4.2 literals (`minDeposit` 1000,
`minWithdrawal` 5000, `referralBonus` 500, `referralPercentage` 5, ...)" is
false at the concrete input `none` (row absent): the deposit handler enforces
a minimum of 100, the withdrawal handler a minimum of 1000, the admin settings
read reports `referralBonus` 1000 and `referralPercentage` 10, and the
bundle-approval handler allows up to 10000 tickets priced 100..50000. -/
theorem settings_fallback_diverges :
    depositMinBound none = 100 ∧ ¬ depositMinBound none = 1000 ∧
    withdrawMinBound none = 1000 ∧ ¬ withdrawMinBound none = 5000 ∧
    (adminSettingsResponse none).referralBonus = some 1000 ∧
    ¬ ((adminSettingsResponse none).referralBonus = some 500) ∧
    (adminSettingsResponse none).referralPercentage = some 10 ∧
    ¬ ((adminSettingsResponse none).referralPercentage = some 5) ∧
    (approveConfig none).maxTicketsPerDraw = some 10000 ∧
    ¬ ((approveConfig none).maxTicketsPerDraw = some 1000) ∧
    (approveConfig none).minTicketPrice = some 100 ∧
    (approveConfig none).maxTicketPrice = some 50000 := by
  refine ⟨by decide, by decide, by decide, by decide, by decide, by decide,
    by decide, by decide, by decide, by decide, by decide, by decide⟩

/-- **C5, amended.** With the `platform_settings` row absent, each handler
enforces its own hard-coded literals: deposits 100..1000000; withdrawals
minimum 1000 with fee 100; purchase quantity capped at 50 (both in the route
and in `buy_tickets_v2`); bundle approval requires 10..10000 tickets priced
100..50000; and the admin settings read reports the document with
`platformFee` 15, `referralBonus` 1000, `referralPercentage` 10,
`minTicketPrice` 500, `maxTicketPrice` 5000, `minTicketsPerDraw` 10,
`maxTicketsPerDraw` 1000, `maxTicketsPerPurchase` 50, `minDeposit` 1000,
`minWithdrawal` 5000, `withdrawalFee` 100. -/
theorem settings_fallback_literals :
    depositMinBound none = 100 ∧ depositMaxBound none = 1000000 ∧
    withdrawMinBound none = 1000 ∧ withdrawFeeApplied none = 100 ∧
    purchaseRouteCap none = 50 ∧ resolveMaxTicketsPerPurchase none = 50 ∧
    (approveConfig none).minTicketsPerDraw = some 10 ∧
    (approveConfig none).maxTicketsPerDraw = some 10000 ∧
    (approveConfig none).minTicketPrice = some 100 ∧
    (approveConfig none).maxTicketPrice = some 50000 ∧
    adminSettingsResponse none = adminSettingsFallback ∧
    adminSettingsFallback.platformFee = some 15 ∧
    adminSettingsFallback.referralBonus = some 1000 ∧
    adminSettingsFallback.referralPercentage = some 10 ∧
    adminSettingsFallback.minTicketPrice = some 500 ∧
    adminSettingsFallback.maxTicketPrice = some 5000 ∧
    adminSettingsFallback.minTicketsPerDraw = some 10 ∧
    adminSettingsFallback.maxTicketsPerDraw = some 1000 ∧
    adminSettingsFallback.maxTicketsPerPurchase = some 50 ∧
    adminSettingsFallback.minDeposit = some 1000 ∧
    adminSettingsFallback.minWithdrawal = some 5000 ∧
    adminSettingsFallback.withdrawalFee = some 100 := by
  decide

/-! ## Theorems for the email-verification claim -/

/-- **C9, counterexample.** The claim says an unknown token yields HTTP 404;
the endpoint actually answers 400 (`Invalid or expired verification token`):
with an empty profile table every token is unknown, and the outcome maps to
status 400, not 404. -/
theorem verify_email_unknown_token_is_400 :
    verifyEmail "tok" 10 [] = (.invalidToken, []) ∧
    verifyEmailStatus .invalidToken = 400 ∧ (400 : Nat) ≠ 404 := by
  refine ⟨by decide, by decide, by decide⟩

/-- **C9, amended.** For every call of `GET /verify-email/:token`: if no
profile holds the token the response is 400 with no profile changed; if the
profile is already verified the response is a 200 no-op; if the token expiry
has passed the response is 400 with no profile changed; otherwise
`is_verified` is set and the verification token and expiry are cleared
(status 200). -/
theorem verify_email_spec (token : String) (now : Nat) (ps : List Profile) :
    (ps.find? (fun p => p.verification_token == some token) = none →
      verifyEmail token now ps = (.invalidToken, ps) ∧
      verifyEmailStatus .invalidToken = 400) ∧
    (∀ p, ps.find? (fun p => p.verification_token == some token) = some p →
      (p.is_verified = true →
        verifyEmail token now ps = (.alreadyVerified, ps) ∧
        verifyEmailStatus .alreadyVerified = 200) ∧
      (p.is_verified = false → p.verification_expires.getD 0 < now →
        verifyEmail token now ps = (.expired, ps) ∧
        verifyEmailStatus .expired = 400) ∧
      (p.is_verified = false → ¬ p.verification_expires.getD 0 < now →
        verifyEmail token now ps =
          (.verified, ps.map (fun q =>
            if q.id == p.id then
              { q with is_verified := true, verification_token := none,
                       verification_expires := none }
            else q)) ∧
        verifyEmailStatus .verified = 200)) := by
  constructor
  · intro hn
    simp [verifyEmail, hn, verifyEmailStatus]
  · intro p hp
    refine ⟨?_, ?_, ?_⟩
    · intro hv
      simp [verifyEmail, hp, hv, verifyEmailStatus]
    · intro hv hexp
      simp [verifyEmail, hp, hv, hexp, verifyEmailStatus]
    · intro hv hexp
      simp [verifyEmail, hp, hv, hexp, verifyEmailStatus]

/-- Concrete profiles for the `verify_email_spec` witness. -/
def vProfVerified : Profile :=
  { id := 1, is_verified := true, verification_token := some "tok" }

/-- Concrete profile whose token expired at time 5. -/
def vProfExpired : Profile :=
  { id := 1, verification_token := some "tok", verification_expires := some 5 }

/-- Concrete profile whose token is valid until time 99. -/
def vProfFresh : Profile :=
  { id := 1, verification_token := some "tok", verification_expires := some 99 }

/-- Witness for `verify_email_spec`: the four branches at concrete inputs. -/
theorem verify_email_spec_witness :
    (verifyEmail "tok" 10 [] = (.invalidToken, []) ∧
      verifyEmailStatus .invalidToken = 400) ∧
    (verifyEmail "tok" 10 [vProfVerified] = (.alreadyVerified, [vProfVerified]) ∧
      verifyEmailStatus .alreadyVerified = 200) ∧
    (verifyEmail "tok" 10 [vProfExpired] = (.expired, [vProfExpired]) ∧
      verifyEmailStatus .expired = 400) ∧
    (verifyEmail "tok" 10 [vProfFresh] =
      (.verified, [{ id := 1, is_verified := true }]) ∧
      verifyEmailStatus .verified = 200) := by
  refine ⟨(verify_email_spec "tok" 10 []).1 (by decide), ?_, ?_, ?_⟩
  · exact ((verify_email_spec "tok" 10 [vProfVerified]).2 vProfVerified
      (by decide)).1 (by decide)
  · exact (((verify_email_spec "tok" 10 [vProfExpired]).2 vProfExpired
      (by decide)).2.1 (by decide)) (by decide)
  · have h4 := (((verify_email_spec "tok" 10 [vProfFresh]).2 vProfFresh
      (by decide)).2.2 (by decide)) (by decide)
    refine ⟨h4.1.trans ?_, h4.2⟩
    decide

/-! ## Theorems for the withdrawal-status webhook claim -/

/-- The webhook scenario for the transfer handlers: a pending `withdrawal`
transaction paired with a pending `withdrawal_requests` row. -/
def transferScenario : DB := {
  transactions := [{ id := 1, user_id := 5, wallet_id := 9, type := "withdrawal",
                     amount := -2000, status := "pending", reference := "LB_WD_1" }],
  withdrawal_requests := [{ id := 2, vendor_id := 5, transaction_id := some 1,
                            amount := 2000, status := "pending" }] }

/-- **C7.** Evaluating the transfer webhooks at the failing input: on
`transfer.completed` the handler marks the paired transaction `completed`,
but the `withdrawal_requests` status check constraint
(`status IN ('pending','approved','rejected','processing')`) rejects the
mirrored `status='completed'` update, so the request row stays `pending`;
likewise `transfer.failed` cannot record `status='failed'`. The gateway
webhook therefore cannot drive a withdrawal request into the
`completed`/`failed` statuses, contrary to the claim. -/
theorem transfer_webhook_blocked_by_status_constraint :
    ((handleTransferCompleted 100 transferScenario (some "LB_WD_1")).transactions.map
        (fun t => t.status) = ["completed"]) ∧
    ((handleTransferCompleted 100 transferScenario (some "LB_WD_1")).withdrawal_requests.map
        (fun r => r.status) = ["pending"]) ∧
    ((handleTransferFailed transferScenario (some "LB_WD_1")).withdrawal_requests.map
        (fun r => r.status) = ["pending"]) ∧
    ((handleTransferFailed transferScenario (some "LB_WD_1")).transactions.map
        (fun t => t.status) = ["failed"]) ∧
    withdrawalStatusAllowed "completed" = false ∧
    withdrawalStatusAllowed "failed" = false := by
  refine ⟨by decide, by decide, by decide, by decide, by decide, by decide⟩

/-! ## Theorems for the timer-draw expiry claim -/

/-- The scheduler scenario: two expired `timer` draws, one with a sold ticket
and one with none, plus the vendor's wallet and the sold ticket. -/
def expiryScenario : DB := {
  wallets := [{ id := 3, user_id := 10 }],
  draws := [
    { id := 1, vendor_id := 10, ticket_price := 500, total_tickets := 10, sold_tickets := 1,
      draw_type := "timer", status := "active", draw_date := some 50 },
    { id := 2, vendor_id := 10, ticket_price := 500, total_tickets := 10, sold_tickets := 0,
      draw_type := "timer", status := "active", draw_date := some 50 }],
  tickets := [{ id := 7, draw_id := 1, user_id := 20, ticket_number := "LB-100001" }] }

/-- **C8.** Evaluating a scheduler tick at the failing input: the expired
zero-sale timer draw transitions to `cancelled` with a completion timestamp
(not `completed`), and the expired one-ticket draw is executed to `completed`
with the valid winner — but the winner notification the scheduler then inserts
uses `type: 'draw_won'`, which the `notifications` type check constraint
(`'welcome'|'referral'|'wallet'|'ticket'|'win'|'draw'|'kyc'|'system'`)
rejects, so no notification row is created, contrary to the claim's final
clause. -/
theorem scheduler_expiry_notification_rejected :
    (let db2 := schedulerTick (fun n => n) 100 expiryScenario
     ((findDraw db2 1).map (fun d => (d.status, d.winner_id, d.winning_ticket_id)) =
        some ("completed", some 20, some 7)) ∧
     ((findDraw db2 2).map (fun d => (d.status, d.completed_at)) =
        some ("cancelled", some 100)) ∧
     db2.notifications = []) ∧
    notificationTypeAllowed "draw_won" = false := by
  refine ⟨⟨by decide, by decide, by decide⟩, by decide⟩


/-! ## Theorems for the webhook-status claim -/

/-- The charge event of the webhook counterexample. -/
def wkCharge : ChargeEvent :=
  { id := 77, tx_ref := some "LB_1_1", amount := 1000, status := "successful" }

/-- Webhook environment in which the gateway verification succeeds but the
wallet-credit UPDATE fails (the one path on which `handleChargeCompleted`
rethrows). -/
def wkEnv : WebhookEnv := {
  webhook_secret := some "sec"
  secret_key_is_test := false
  verify_result := some wkCharge
  wallet_update_fails := true }

/-- Store holding the depositor's wallet and the pending topup transaction. -/
def wkDb : DB := {
  wallets := [{ id := 4, user_id := 6 }],
  transactions := [{ id := 9, user_id := 6, wallet_id := 4, type := "topup",
                     amount := 1000, status := "pending", reference := "LB_1_1" }] }

/-- A correctly signed `charge.completed` webhook request. -/
def wkReq : WebhookReq := {
  verif_hash := some "sec"
  event := some "charge.completed"
  data := wkCharge }

/-- **C6, counterexample.** A correctly signed `charge.completed` webhook
whose handler throws (the wallet-credit UPDATE fails) is answered 500, not
200: the route's catch-all returns 500 on a thrown handler error, so the
endpoint does not answer 200 "regardless of the outcome of the downstream
event handling". -/
theorem webhook_handler_error_returns_500 :
    verifyWebhookSignature wkEnv.webhook_secret "sec" = true ∧
    (webhookPost wkEnv 100 wkDb wkReq).1 = 500 ∧ (500 : Nat) ≠ 200 := by
  refine ⟨by decide, by decide, by decide⟩

/-- **C6, amended.** A request with a missing or mismatched signature, or with
no secret configured, is answered 401 with the store untouched; once the
signature check passes the endpoint answers 200 exactly when the dispatched
handling returns (even when the handler swallowed an internal failure), and
answers 500 (store result discarded) when the dispatched handling throws. -/
theorem webhook_status_spec (env : WebhookEnv) (now : Nat) (db : DB)
    (req : WebhookReq) :
    (req.verif_hash = none → webhookPost env now db req = (401, db)) ∧
    (∀ hsh, req.verif_hash = some hsh →
      verifyWebhookSignature env.webhook_secret hsh = false →
      webhookPost env now db req = (401, db)) ∧
    (env.webhook_secret = none → webhookPost env now db req = (401, db)) ∧
    (∀ hsh, req.verif_hash = some hsh →
      verifyWebhookSignature env.webhook_secret hsh = true →
      (∀ db2, webhookDispatch env now db req = .ok db2 →
        webhookPost env now db req = (200, db2)) ∧
      (∀ e, webhookDispatch env now db req = .error e →
        webhookPost env now db req = (500, db))) := by
  refine ⟨?_, ?_, ?_, ?_⟩
  · intro hn
    simp [webhookPost, hn]
  · intro hsh hh hbad
    simp [webhookPost, hh, hbad]
  · intro hsec
    cases hh : req.verif_hash with
    | none => simp [webhookPost, hh]
    | some hsh => simp [webhookPost, hh, verifyWebhookSignature, hsec]
  · intro hsh hh hok
    constructor
    · intro db2 hdisp
      simp [webhookPost, hh, hok, hdisp]
    · intro e hdisp
      simp [webhookPost, hh, hok, hdisp]

/-- An unrecognized event name on a correctly signed request (dispatch is a
logged no-op). -/
def wkReqNoop : WebhookReq := {
  verif_hash := some "sec"
  event := some "subscription.cancelled"
  data := wkCharge }

/-- Witness for `webhook_status_spec`: each branch at a concrete input —
missing header, wrong header, unconfigured secret, a signed no-op dispatch
answered 200, and the signed throwing dispatch answered 500. -/
theorem webhook_status_spec_witness :
    webhookPost wkEnv 100 wkDb { wkReq with verif_hash := none } = (401, wkDb) ∧
    webhookPost wkEnv 100 wkDb { wkReq with verif_hash := some "bad" } = (401, wkDb) ∧
    webhookPost { wkEnv with webhook_secret := none } 100 wkDb wkReq = (401, wkDb) ∧
    webhookPost wkEnv 100 wkDb wkReqNoop = (200, wkDb) ∧
    webhookPost wkEnv 100 wkDb wkReq = (500, wkDb) := by
  refine ⟨?_, ?_, ?_, ?_, ?_⟩
  · exact (webhook_status_spec wkEnv 100 wkDb _).1 rfl
  · exact (webhook_status_spec wkEnv 100 wkDb _).2.1 "bad" rfl (by decide)
  · exact (webhook_status_spec _ 100 wkDb wkReq).2.2.1 rfl
  · exact ((webhook_status_spec wkEnv 100 wkDb wkReqNoop).2.2.2 "sec" rfl
      (by decide)).1 wkDb rfl
  · exact ((webhook_status_spec wkEnv 100 wkDb wkReq).2.2.2 "sec" rfl
      (by decide)).2 "wallet update failed" rfl

/-! ## Theorems for the slot-indices quantity claim -/

/-- **C10.** When the request body supplies `slot_indices` as an array: the
route's behaviour is independent of the `quantity` field; any quantity passed
to `buy_tickets_v2` equals the array's length; and once the slot validations
pass, the RPC is called with exactly that length, with the slot positions
bound positionally onto the created tickets only after the RPC reports
success (an RPC failure performs no slot binding). -/
theorem buy_route_slots_spec (h : Nat → Nat) (now : Nat) (db : DB)
    (userId did : Nat) (l : List Nat) (req : BuyRequest)
    (hs : req.slot_indices = some l) (hd : req.draw_id = some did) :
    (∀ q1 q2 : Nat,
      buyRoute h now db userId { req with quantity := q1 } =
      buyRoute h now db userId { req with quantity := q2 }) ∧
    ((buyRoute h now db userId req).rpcQuantity = none ∨
      (buyRoute h now db userId req).rpcQuantity = some l.length) ∧
    (1 ≤ l.length → l.length ≤ purchaseRouteCap db.settings →
      slotConflict db did (some l) = false →
      buyRoute h now db userId req =
        (match buyTicketsV2 h now db userId did l.length with
         | (.failure _, db2) =>
           { rpcQuantity := some l.length, status := 400, db := db2 }
         | (.success info, db2) =>
           { rpcQuantity := some l.length, status := 200,
             db := applySlotBindings db2 (info.ticketIds.zip l) })) := by
  refine ⟨?_, ?_, ?_⟩
  · intro q1 q2
    simp [buyRoute, routeQty, hs, hd]
  · simp only [buyRoute, hs, hd, routeQty]
    split
    · exact Or.inl rfl
    split
    · exact Or.inl rfl
    rcases hres : buyTicketsV2 h now db userId did l.length with ⟨r, db2⟩
    cases r <;> simp [hres]
  · intro h1 h2 hsc
    have hne : l ≠ [] := by
      intro he
      rw [he] at h1
      exact absurd h1 (by decide)
    have hle : ¬ purchaseRouteCap db.settings < l.length := Nat.not_lt.mpr h2
    rcases hres : buyTicketsV2 h now db userId did l.length with ⟨r, db2⟩
    cases r with
    | failure msg =>
      simp [buyRoute, routeQty, hs, hd, hne, hle, hsc, hres]
    | success info =>
      simp [buyRoute, routeQty, hs, hd, hne, hle, hsc, hres]

/-- Concrete store for the `buy_route_slots_spec` witness: one active draw
with an eligible buyer. -/
def slotsDb : DB := {
  profiles := [{ id := 20 }],
  wallets := [{ id := 4, user_id := 20, balance := 10000 }],
  draws := [{ id := 1, vendor_id := 10, ticket_price := 500, total_tickets := 10,
              sold_tickets := 3, draw_type := "timer", status := "active" }] }

/-- Concrete request supplying two slot positions (and a contradictory
`quantity` that must be ignored). -/
def slotsReq : BuyRequest := { draw_id := some 1, quantity := 7,
                               slot_indices := some [2, 5] }

/-- Witness for `buy_route_slots_spec` at a concrete purchase: the RPC is
reached with quantity 2 (the array length, not the request's 7) and the slot
positions are bound onto the created tickets only on RPC success. -/
theorem buy_route_slots_spec_witness :
    buyRoute (fun n => n) 100 slotsDb 20 slotsReq =
      (match buyTicketsV2 (fun n => n) 100 slotsDb 20 1 2 with
       | (.failure _, db2) => { rpcQuantity := some 2, status := 400, db := db2 }
       | (.success info, db2) =>
         { rpcQuantity := some 2, status := 200,
           db := applySlotBindings db2 (info.ticketIds.zip [2, 5]) }) :=
  (buy_route_slots_spec (fun n => n) 100 slotsDb 20 1 [2, 5] slotsReq
    rfl rfl).2.2 (by decide) (by decide) (by decide)


/-! ## Lemmas about winner selection and the vendor credit -/

/-- The foldl underlying `selectWinner` picks an element of `a :: ts`. -/
theorem foldl_pick_mem (h : Nat → Nat) :
    ∀ (ts : List Ticket) (a : Ticket),
      ts.foldl (fun best x => if h x.id < h best.id then x else best) a ∈ a :: ts := by
  intro ts
  induction ts with
  | nil => intro a; simp
  | cons b bs ih =>
    intro a
    simp only [List.foldl_cons]
    rcases List.mem_cons.mp (ih (if h b.id < h a.id then b else a)) with heq | hin
    · rw [heq]
      by_cases hb : h b.id < h a.id
      · simp [hb]
      · simp [hb]
    · simp [List.mem_cons.mpr (Or.inr (List.mem_cons.mpr (Or.inr hin)))]

/-- The selected winner is one of the draw's tickets. -/
theorem selectWinner_mem (h : Nat → Nat) (l : List Ticket) (t : Ticket)
    (hsel : selectWinner h l = some t) : t ∈ l := by
  cases l with
  | nil => cases hsel
  | cons a ts =>
    simp only [selectWinner, Option.some.injEq] at hsel
    rw [← hsel]
    exact foldl_pick_mem h ts a

/-- `creditVendor` leaves every wallet's spendable `balance` unchanged. -/
theorem creditVendor_balanceOf (now : Nat) (db : DB) (d : Draw) (payout : Rat)
    (uid : Nat) :
    balanceOf (creditVendor now db d payout) uid = balanceOf db uid := by
  unfold creditVendor
  cases hw : findWallet db d.vendor_id with
  | none => rfl
  | some vw =>
    simp only [balanceOf, findWallet]
    rw [find?_map_pres _ _ (fun a => by by_cases hid : (a.id == vw.id) = true <;> simp [hid])]
    cases db.wallets.find? (fun w => w.user_id == uid) with
    | none => rfl
    | some w =>
      by_cases hid : w.id = vw.id <;> simp [hid]

/-- `creditVendor` adds exactly the payout to the vendor's `vendor_balance`. -/
theorem creditVendor_vendorBalance (now : Nat) (db : DB) (d : Draw)
    (payout : Rat) (w : Wallet) (hw : findWallet db d.vendor_id = some w) :
    vendorBalanceOf (creditVendor now db d payout) d.vendor_id =
      some (w.vendor_balance + payout) := by
  unfold creditVendor
  rw [hw]
  simp only [vendorBalanceOf, findWallet]
  rw [find?_map_pres _ _ (fun a => by by_cases hid : (a.id == w.id) = true <;> simp [hid])]
  rw [show db.wallets.find? (fun x => x.user_id == d.vendor_id) = some w from hw]
  simp

/-- The frame of `execute_draw`: it never changes a wallet's spendable
balance, a draw's `sold_tickets`, the number of tickets of any draw, and it
only appends to the transactions ledger. -/
theorem executeDraw_frame (h : Nat → Nat) (now : Nat) (db : DB) (i : Nat) :
    (∀ uid, balanceOf (executeDraw h now db i).2 uid = balanceOf db uid) ∧
    (∀ did2, soldOf (executeDraw h now db i).2 did2 = soldOf db did2) ∧
    (∀ did2, (ticketsOfDraw (executeDraw h now db i).2 did2).length =
      (ticketsOfDraw db did2).length) ∧
    (∀ t : Txn, t ∈ db.transactions → t ∈ (executeDraw h now db i).2.transactions) := by
  unfold executeDraw
  cases hfd : findDraw db i with
  | none => simp
  | some d =>
    dsimp only
    by_cases h1 : (d.status == "completed") = true
    · simp [h1]
    · rw [Bool.not_eq_true] at h1
      by_cases h2 : (d.status == "cancelled") = true
      · simp [h1, h2]
      · rw [Bool.not_eq_true] at h2
        by_cases h3 : (d.sold_tickets == 0) = true
        · simp [h1, h2, h3]
        · rw [Bool.not_eq_true] at h3
          rw [if_neg (by simp [h1]), if_neg (by simp [h2]), if_neg (by simp [h3])]
          cases hsel : selectWinner h (ticketsOfDraw db i) with
          | none => simp
          | some wt =>
            refine ⟨?_, ?_, ?_, ?_⟩
            · intro uid
              exact creditVendor_balanceOf now db d _ uid
            · intro did2
              simp only [soldOf, findDraw]
              have hset : ∀ p : Rat, (creditVendor now db d p).draws = db.draws := by
                intro p
                unfold creditVendor
                cases findWallet db d.vendor_id <;> rfl
              rw [hset]
              rw [find?_map_pres _ _
                (fun a => by by_cases hid : (a.id == i) = true <;> simp [hid])]
              cases db.draws.find? (fun x => x.id == did2) with
              | none => rfl
              | some x =>
                by_cases hid : x.id = i <;> simp [hid]
            · intro did2
              have htk : ∀ p : Rat, (creditVendor now db d p).tickets = db.tickets := by
                intro p
                unfold creditVendor
                cases findWallet db d.vendor_id <;> rfl
              simp only [ticketsOfDraw, htk]
              exact filter_map_pres_length _ _
                (fun a => by by_cases hid : (a.id == wt.id) = true <;> simp [hid]) _
            · intro t ht
              show t ∈ (creditVendor now db d _).transactions
              unfold creditVendor
              cases findWallet db d.vendor_id with
              | none => exact ht
              | some vw => exact List.mem_append_left _ ht

/-- A draw already `completed` is rejected by `execute_draw` with the store
untouched. -/
theorem executeDraw_completed_noop (h : Nat → Nat) (now : Nat) (db : DB)
    (drawId : Nat) (d : Draw) (hd : findDraw db drawId = some d)
    (hst : d.status = "completed") :
    executeDraw h now db drawId = (.failure "Draw already completed", db) := by
  unfold executeDraw
  rw [hd]
  simp [hst]


/-! ## Theorems for the payout-conservation claim -/

/-- **C2.** For every completing execution of `execute_draw` (draw found, not
already completed or cancelled, tickets sold, and the vendor's wallet
present): the recorded platform fee plus the vendor payout credited to the
vendor's `vendor_balance` equals `sold_tickets * ticket_price` exactly in
rational arithmetic; the fee is `revenue * (feePct / 100)` with `feePct` the
`platformFee` read from the settings row at execution time, which resolves to
15 when the row or the key is absent. -/
theorem payout_conservation (h : Nat → Nat) (now : Nat) (db : DB)
    (drawId : Nat) (d : Draw) (w : Wallet)
    (hd : findDraw db drawId = some d)
    (h1 : d.status ≠ "completed") (h2 : d.status ≠ "cancelled")
    (h3 : d.sold_tickets ≠ 0)
    (hne : ticketsOfDraw db drawId ≠ [])
    (hw : findWallet db d.vendor_id = some w) :
    ∃ info db2,
      executeDraw h now db drawId = (.success info, db2) ∧
      info.platform_fee + info.vendor_payout =
        (d.sold_tickets : Rat) * d.ticket_price ∧
      info.platform_fee = (d.sold_tickets : Rat) * d.ticket_price *
        (resolvePlatformFeePercent db.settings / 100) ∧
      vendorBalanceOf db2 d.vendor_id = some (w.vendor_balance + info.vendor_payout) ∧
      (∃ t ∈ db2.transactions, t.user_id = d.vendor_id ∧ t.type = "payout" ∧
        t.status = "completed" ∧ t.amount = info.vendor_payout) ∧
      (∃ a ∈ db2.audit_log, a.event_type = "draw_executed" ∧
        a.platform_fee = some info.platform_fee ∧
        a.vendor_payout = some info.vendor_payout ∧
        a.total_revenue = some ((d.sold_tickets : Rat) * d.ticket_price)) ∧
      resolvePlatformFeePercent none = 15 ∧
      (∀ c : Settings, resolvePlatformFeePercent (some c) = c.platformFee.getD 15) := by
  obtain ⟨wt, hsel⟩ : ∃ wt, selectWinner h (ticketsOfDraw db drawId) = some wt := by
    cases hl : ticketsOfDraw db drawId with
    | nil => exact absurd hl hne
    | cons a ts => exact ⟨_, rfl⟩
  unfold executeDraw
  rw [hd]
  dsimp only
  rw [if_neg (by simp [h1]), if_neg (by simp [h2]), if_neg (by simp [h3]), hsel]
  refine ⟨_, _, rfl, ?_, ?_, ?_, ?_, ?_, rfl, fun c => rfl⟩
  · ring
  · rfl
  · show vendorBalanceOf { creditVendor now db d _ with
        tickets := _, draws := _, audit_log := _ } d.vendor_id = _
    have : ∀ (x : DB) (tk) (dr) (au),
        vendorBalanceOf { x with tickets := tk, draws := dr, audit_log := au } =
        vendorBalanceOf x := by
      intro x tk dr au
      rfl
    rw [this]
    exact creditVendor_vendorBalance now db d _ w hw
  · show ∃ t ∈ (creditVendor now db d _).transactions, _
    unfold creditVendor
    rw [hw]
    exact ⟨_, List.mem_append_right _ (List.mem_cons_self _ _), rfl, rfl, rfl, rfl⟩
  · exact ⟨_, List.mem_append_right _ (List.mem_cons_self _ _), rfl, rfl, rfl, rfl⟩


/-! ## Theorems for the winner-validity claim -/

/-- Flipping `is_winner` on the (unique) ticket with the winner's id in a
list holding no winner yet leaves exactly one winner among the tickets of the
draw. -/
theorem one_winner_after (did : Nat) (wt : Ticket) :
    ∀ l : List Ticket, (l.map (fun t => t.id)).Nodup → wt ∈ l →
      (wt.draw_id == did) = true →
      (∀ t ∈ l, (t.draw_id == did) = true → t.is_winner = false) →
      ((l.map (fun t => if (t.id == wt.id) = true then
          { t with is_winner := true } else t)).filter
        (fun t => t.draw_id == did && t.is_winner)).length = 1 := by
  intro l
  induction l with
  | nil => intro _ hmem; cases hmem
  | cons a rest ih =>
    intro hnd hmem hdid hnowin
    rw [List.map_cons, List.nodup_cons] at hnd
    by_cases hida : (a.id == wt.id) = true
    · have hwa : wt = a := by
        rcases List.mem_cons.mp hmem with heq | hin
        · exact heq
        · exfalso
          apply hnd.1
          rw [show a.id = wt.id from by simpa using hida]
          exact List.mem_map.mpr ⟨wt, hin, rfl⟩
      have hrest : (rest.map (fun t => if (t.id == wt.id) = true then
          { t with is_winner := true } else t)).filter
            (fun t => t.draw_id == did && t.is_winner) = [] := by
        rw [List.filter_eq_nil_iff]
        intro t ht
        rcases List.mem_map.mp ht with ⟨t0, ht0, hteq⟩
        have hne : (t0.id == wt.id) = false := by
          rw [beq_eq_false_iff_ne]
          intro habs
          apply hnd.1
          rw [show a.id = wt.id from by simpa using hida, ← habs]
          exact List.mem_map.mpr ⟨t0, ht0, rfl⟩
        rw [hne] at hteq
        simp only [Bool.false_eq_true, if_false] at hteq
        rw [← hteq]
        by_cases hdr : (t0.draw_id == did) = true
        · simp [hdr, hnowin t0 (List.mem_cons_of_mem a ht0) hdr]
        · rw [Bool.not_eq_true] at hdr
          simp [hdr]
      rw [List.map_cons, hida, if_pos rfl, List.filter_cons, hrest]
      rw [hwa] at hdid
      simp [hdid]
    · have hwin : wt ∈ rest := by
        rcases List.mem_cons.mp hmem with heq | hin
        · exfalso
          apply hida
          rw [heq]
          exact beq_self_eq_true a.id
        · exact hin
      have hskip : (a.draw_id == did && a.is_winner) = false := by
        by_cases hdr : (a.draw_id == did) = true
        · simp [hdr, hnowin a (List.mem_cons_self a rest) hdr]
        · rw [Bool.not_eq_true] at hdr
          simp [hdr]
      rw [List.map_cons, if_neg hida, List.filter_cons]
      simp only [hskip, Bool.false_eq_true, if_false]
      exact ih hnd.2 hwin hdid (fun t ht => hnowin t (List.mem_cons_of_mem a ht))

/-- **C3.** For every completing execution of `execute_draw`: the winning
ticket is a ticket of that draw, `winner_id` is that ticket's owner, the draw
ends `completed` carrying exactly that winner/ticket pair, exactly one ticket
of the draw is flagged `is_winner` (given none was flagged before), and a
second execution attempt on the completed draw is rejected with the store
unchanged. -/
theorem winner_validity (h : Nat → Nat) (now : Nat) (db : DB)
    (drawId : Nat) (d : Draw)
    (hd : findDraw db drawId = some d)
    (h1 : d.status ≠ "completed") (h2 : d.status ≠ "cancelled")
    (h3 : d.sold_tickets ≠ 0)
    (hne : ticketsOfDraw db drawId ≠ [])
    (hnd : (db.tickets.map (fun t => t.id)).Nodup)
    (hnowin : ∀ t ∈ db.tickets, (t.draw_id == drawId) = true → t.is_winner = false) :
    ∃ info db2,
      executeDraw h now db drawId = (.success info, db2) ∧
      (∃ t ∈ db.tickets, t.draw_id = drawId ∧ info.winning_ticket_id = t.id ∧
        info.winner_id = t.user_id) ∧
      ((findDraw db2 drawId).map (fun x => (x.status, x.winner_id, x.winning_ticket_id)) =
        some ("completed", some info.winner_id, some info.winning_ticket_id)) ∧
      ((db2.tickets.filter (fun t => t.draw_id == drawId && t.is_winner)).length = 1) ∧
      (∀ h9 now9, executeDraw h9 now9 db2 drawId =
        (.failure "Draw already completed", db2)) := by
  obtain ⟨wt, hsel⟩ : ∃ wt, selectWinner h (ticketsOfDraw db drawId) = some wt := by
    cases hl : ticketsOfDraw db drawId with
    | nil => exact absurd hl hne
    | cons a ts => exact ⟨_, rfl⟩
  have hwmem : wt ∈ ticketsOfDraw db drawId := selectWinner_mem h _ wt hsel
  have hwmem' : wt ∈ db.tickets ∧ (wt.draw_id == drawId) = true := by
    have := List.mem_filter.mp hwmem
    exact ⟨this.1, this.2⟩
  have hdrawid : (d.id == drawId) = true := by
    have h0 : db.draws.find? (fun x => x.id == drawId) = some d := hd
    simpa using List.find?_some h0
  have hdid9 : d.id = drawId := by simpa using hdrawid
  unfold executeDraw
  rw [hd]
  dsimp only
  rw [if_neg (by simp [h1]), if_neg (by simp [h2]), if_neg (by simp [h3]), hsel]
  have hdraws : ∀ p : Rat, (creditVendor now db d p).draws = db.draws := by
    intro p
    unfold creditVendor
    cases findWallet db d.vendor_id <;> rfl
  have htks : ∀ p : Rat, (creditVendor now db d p).tickets = db.tickets := by
    intro p
    unfold creditVendor
    cases findWallet db d.vendor_id <;> rfl
  refine ⟨_, _, rfl, ⟨wt, hwmem'.1, by simpa using hwmem'.2, rfl, rfl⟩, ?_, ?_, ?_⟩
  · simp only [findDraw]
    rw [hdraws]
    rw [find?_map_pres _ _
      (fun a => by by_cases hid : (a.id == drawId) = true <;> simp [hid])]
    rw [show db.draws.find? (fun x => x.id == drawId) = some d from hd]
    simp [hdid9]
  · show ((List.map _ (creditVendor now db d _).tickets).filter _).length = 1
    rw [htks]
    exact one_winner_after drawId wt db.tickets hnd hwmem'.1 hwmem'.2 hnowin
  · intro h9 now9
    apply executeDraw_completed_noop h9 now9 _ drawId
      ({ d with
          status := "completed"
          winner_id := some wt.user_id
          winning_ticket_id := some wt.id
          completed_at := some now })
    · simp only [findDraw]
      rw [hdraws]
      rw [find?_map_pres _ _
        (fun a => by by_cases hid : (a.id == drawId) = true <;> simp [hid])]
      rw [show db.draws.find? (fun x => x.id == drawId) = some d from hd]
      simp [hdid9]
    · rfl


/-! ## Theorems for the purchase-atomicity claim -/

/-- The referral phase is the identity when the buyer has no `referred_by`
(or no profile row at all). -/
theorem referralPhase_skip (now : Nat) (db : DB) (uid wid tid : Nat) (nb : Rat)
    (hp : ∀ p, findProfile db uid = some p → p.referred_by = none) :
    referralPhase now db uid wid tid nb =
      { db := db, new_balance := nb, referrer_bonus := some 0,
        referee_bonus := some 0 } := by
  unfold referralPhase
  cases hfp : findProfile db uid with
  | none => rfl
  | some p =>
    dsimp only
    rw [hp p hfp]

/-- All the tickets issued by one purchase belong to the purchased draw and
the buyer. -/
theorem mkTickets_fields (drawId userId txnId baseId seqStart q : Nat) :
    ∀ t ∈ mkTickets drawId userId txnId baseId seqStart q,
      t.draw_id = drawId ∧ t.user_id = userId := by
  intro t ht
  rcases List.mem_map.mp ht with ⟨i, _, rfl⟩
  exact ⟨rfl, rfl⟩

/-- One purchase issues exactly `q` tickets. -/
theorem mkTickets_length (drawId userId txnId baseId seqStart q : Nat) :
    (mkTickets drawId userId txnId baseId seqStart q).length = q := by
  simp [mkTickets]

/-- The effect of the core purchase mutation on the purchased draw's
`sold_tickets`. -/
theorem purchaseMutation_sold (now : Nat) (db : DB) (userId drawId q : Nat)
    (d : Draw) (w : Wallet) (hd : findDraw db drawId = some d) :
    soldOf (purchaseMutation now db userId drawId q d w) drawId =
      some (d.sold_tickets + q) := by
  have hdid : d.id = drawId := by
    have h0 : db.draws.find? (fun x => x.id == drawId) = some d := hd
    simpa using List.find?_some h0
  simp only [purchaseMutation, soldOf, findDraw]
  rw [find?_map_pres _ _
    (fun a => by by_cases hid : (a.id == drawId) = true <;> simp [hid])]
  rw [show db.draws.find? (fun x => x.id == drawId) = some d from hd]
  simp [hdid]

/-- The effect of the core purchase mutation on the draw's ticket count. -/
theorem purchaseMutation_tickets (now : Nat) (db : DB) (userId drawId q : Nat)
    (d : Draw) (w : Wallet) :
    (ticketsOfDraw (purchaseMutation now db userId drawId q d w) drawId).length =
      (ticketsOfDraw db drawId).length + q := by
  have hmk : (List.filter (fun t => t.draw_id == drawId)
      (mkTickets drawId userId db.nextId (db.nextId + 1) db.ticket_seq q)).length = q := by
    rw [List.filter_eq_self.mpr (fun t ht => by
      simp [(mkTickets_fields drawId userId db.nextId (db.nextId + 1) db.ticket_seq q
        t ht).1])]
    exact mkTickets_length drawId userId db.nextId (db.nextId + 1) db.ticket_seq q
  simp only [purchaseMutation, ticketsOfDraw]
  rw [List.filter_append, List.length_append, hmk]

/-- The effect of the core purchase mutation on the buyer's balance. -/
theorem purchaseMutation_balance (now : Nat) (db : DB) (userId drawId q : Nat)
    (d : Draw) (w : Wallet) (hw : findWallet db userId = some w) :
    balanceOf (purchaseMutation now db userId drawId q d w) userId =
      some (w.balance - d.ticket_price * (q : Rat)) := by
  simp only [purchaseMutation, balanceOf, findWallet]
  rw [find?_map_pres _ _
    (fun a => by by_cases hid : (a.id == w.id) = true <;> simp [hid])]
  rw [show db.wallets.find? (fun x => x.user_id == userId) = some w from hw]
  simp

/-- The purchase transaction lands in the ledger of the mutated store. -/
theorem purchaseMutation_txn (now : Nat) (db : DB) (userId drawId q : Nat)
    (d : Draw) (w : Wallet) :
    purchaseTxn now db userId d w q ∈
      (purchaseMutation now db userId drawId q d w).transactions := by
  simp only [purchaseMutation]
  exact List.mem_append_right _ (List.mem_cons_self _ _)

/-- **C1.** For every call of `buy_tickets_v2` with a quantity in the allowed
range on a found draw: (a) if `sold_tickets + q > total_tickets` the call is
rejected with the store untouched; (b) every rejection, whatever its reason,
leaves the store untouched (no partial effect); (c) if the draw is active,
the buyer is not the vendor, capacity suffices, and the buyer's unlocked
wallet covers `ticket_price * q` (and no referral bonus applies to the
buyer), the call succeeds, creates exactly `q` ticket rows of that draw,
debits the buyer's wallet by exactly `ticket_price * q` (recorded in a
completed `purchase` transaction with matching before/after balances), and
sets the draw's `sold_tickets` to `sold_tickets + q`. -/
theorem purchase_atomicity (h : Nat → Nat) (now : Nat) (db : DB)
    (userId drawId q : Nat) (d : Draw)
    (hq1 : 1 ≤ q) (hq2 : q ≤ resolveMaxTicketsPerPurchase db.settings)
    (hd : findDraw db drawId = some d) :
    (d.total_tickets < d.sold_tickets + q →
      ∃ msg, buyTicketsV2 h now db userId drawId q = (.failure msg, db)) ∧
    (∀ msg db2, buyTicketsV2 h now db userId drawId q = (.failure msg, db2) →
      db2 = db) ∧
    (∀ w, findWallet db userId = some w →
      d.status = "active" → d.vendor_id ≠ userId →
      d.sold_tickets + q ≤ d.total_tickets →
      w.is_locked = false → d.ticket_price * (q : Rat) ≤ w.balance →
      (∀ p, findProfile db userId = some p → p.referred_by = none) →
      ∃ info db2,
        buyTicketsV2 h now db userId drawId q = (.success info, db2) ∧
        info.total_cost = d.ticket_price * (q : Rat) ∧
        soldOf db2 drawId = some (d.sold_tickets + q) ∧
        (ticketsOfDraw db2 drawId).length = (ticketsOfDraw db drawId).length + q ∧
        balanceOf db2 userId = some (w.balance - d.ticket_price * (q : Rat)) ∧
        (∃ t ∈ db2.transactions, t.user_id = userId ∧ t.type = "purchase" ∧
          t.status = "completed" ∧ t.amount = d.ticket_price * (q : Rat) ∧
          t.balance_before = some w.balance ∧
          t.balance_after = some (w.balance - d.ticket_price * (q : Rat)))) := by
  refine ⟨?_, ?_, ?_⟩
  · intro hcap
    simp only [buyTicketsV2]
    split
    · exact ⟨_, rfl⟩
    rw [hd]
    dsimp only
    split
    · exact ⟨_, rfl⟩
    split
    · exact ⟨_, rfl⟩
    exact ⟨_, rfl⟩
  · intro msg db2 hres
    unfold buyTicketsV2 at hres
    repeat' split at hres
    all_goals try rw [if_neg (show
      ¬((decide (q < 1) || decide (q > resolveMaxTicketsPerPurchase db.settings)) = true) by
        simp only [Bool.or_eq_true, decide_eq_true_eq]
        omega)] at hres
    all_goals first
      | (injection hres with h1 h2; exact h2.symm)
      | simp [buyCore, Prod.mk.injEq] at hres
  · intro w hw hact hvend hcap hlock hbal href
    have hq1' : ¬ q < 1 := by omega
    have hq2' : ¬ q > resolveMaxTicketsPerPurchase db.settings := by omega
    have hcap' : ¬ d.sold_tickets + q > d.total_tickets := by omega
    simp only [buyTicketsV2]
    rw [if_neg (by simp [hq1', hq2']), hd]
    dsimp only
    rw [if_neg (by simp [hact]), if_neg (by simp [hvend]), if_neg (by simpa using hcap'),
      hw]
    dsimp only
    rw [if_neg (by simpa using not_lt.mpr hbal), if_neg (by simp [hlock])]
    -- now the goal is about buyCore
    unfold buyCore
    dsimp only
    have hro := referralPhase_skip now (purchaseMutation now db userId drawId q d w)
      userId w.id db.nextId (w.balance - d.ticket_price * (q : Rat))
      (fun p hp => href p hp)
    rw [hro]
    dsimp only
    have hframe := fun dbx => executeDraw_frame h now dbx drawId
    by_cases hauto :
        (d.draw_type == "slot_complete" && decide (d.sold_tickets + q ≥ d.total_tickets)) = true
    · rw [if_pos hauto]
      refine ⟨_, _, rfl, rfl, ?_, ?_, ?_, ?_⟩
      · rw [(hframe _).2.1 drawId]
        exact purchaseMutation_sold now db userId drawId q d w hd
      · rw [(hframe _).2.2.1 drawId]
        exact purchaseMutation_tickets now db userId drawId q d w
      · rw [(hframe _).1 userId]
        exact purchaseMutation_balance now db userId drawId q d w hw
      · exact ⟨purchaseTxn now db userId d w q,
          (hframe _).2.2.2 _ (purchaseMutation_txn now db userId drawId q d w),
          rfl, rfl, rfl, rfl, rfl, rfl⟩
    · rw [if_neg (by simpa using hauto)]
      refine ⟨_, _, rfl, rfl, ?_, ?_, ?_, ?_⟩
      · exact purchaseMutation_sold now db userId drawId q d w hd
      · exact purchaseMutation_tickets now db userId drawId q d w
      · exact purchaseMutation_balance now db userId drawId q d w hw
      · exact ⟨purchaseTxn now db userId d w q,
          purchaseMutation_txn now db userId drawId q d w,
          rfl, rfl, rfl, rfl, rfl, rfl⟩


/-- The witness draw of the successful purchase (identical to the draw row of
`slotsDb`). -/
def buyDraw : Draw := {
  id := 1, vendor_id := 10, ticket_price := 500,
  total_tickets := 10, sold_tickets := 3, draw_type := "timer", status := "active" }

/-- The witness buyer wallet (identical to the wallet row of `slotsDb`). -/
def buyWallet : Wallet := { id := 4, user_id := 20, balance := 10000 }

/-- A nearly sold-out draw: 9 of 10 tickets sold, so a purchase of 2 must be
rejected. -/
def fullDraw : Draw := {
  id := 1, vendor_id := 10, ticket_price := 500,
  total_tickets := 10, sold_tickets := 9, draw_type := "timer", status := "active" }

/-- Store around `fullDraw` for the rejection half of the atomicity witness. -/
def fullDb : DB := {
  profiles := [{ id := 20 }],
  wallets := [buyWallet],
  draws := [fullDraw] }

/-- Witness for `purchase_atomicity`: buying 2 tickets of a 9/10 draw is
rejected leaving the store untouched; buying 2 tickets of a 3/10 draw
succeeds, issues 2 tickets, debits 1000 and advances `sold_tickets` to 5. -/
theorem purchase_atomicity_witness :
    (∃ msg, buyTicketsV2 (fun n => n) 100 fullDb 20 1 2 = (.failure msg, fullDb)) ∧
    (∃ info db2,
      buyTicketsV2 (fun n => n) 100 slotsDb 20 1 2 = (.success info, db2) ∧
      info.total_cost = buyDraw.ticket_price * ((2 : Nat) : Rat) ∧
      soldOf db2 1 = some (buyDraw.sold_tickets + 2) ∧
      (ticketsOfDraw db2 1).length = (ticketsOfDraw slotsDb 1).length + 2 ∧
      balanceOf db2 20 = some (buyWallet.balance - buyDraw.ticket_price * ((2 : Nat) : Rat)) ∧
      (∃ t ∈ db2.transactions, t.user_id = 20 ∧ t.type = "purchase" ∧
        t.status = "completed" ∧ t.amount = buyDraw.ticket_price * ((2 : Nat) : Rat) ∧
        t.balance_before = some buyWallet.balance ∧
        t.balance_after = some (buyWallet.balance -
          buyDraw.ticket_price * ((2 : Nat) : Rat)))) := by
  constructor
  · exact (purchase_atomicity (fun n => n) 100 fullDb 20 1 2 fullDraw
      (by decide) (by decide) (by decide)).1 (by decide)
  · exact (purchase_atomicity (fun n => n) 100 slotsDb 20 1 2 buyDraw
      (by decide) (by decide) (by decide)).2.2 buyWallet (by decide) (by decide)
      (by decide) (by decide) (by decide)
      (by simp only [buyDraw, buyWallet]; norm_num) (by decide)

/-! ## Theorems for the referral-bonus claim -/

/-- A balance-only wallet update commutes with `find?` for any predicate that
ignores the balance. -/
theorem find?_credit_pres (rB : Rat) (wid : Nat) (p : Wallet → Bool)
    (hp : ∀ (a : Wallet) (b : Rat), p { a with balance := b } = p a)
    (l : List Wallet) :
    (l.map (fun w => if w.id == wid then { w with balance := w.balance + rB }
        else w)).find? p =
      (l.find? p).map (fun w => if w.id == wid then
        { w with balance := w.balance + rB } else w) := by
  apply find?_map_pres
  intro a
  by_cases hid : (a.id == wid) = true <;> simp [hid, hp]

/-- **C4.** The referral branch of `buy_tickets_v2`: (a) a buyer without
`referred_by` triggers nothing — no wallet credit, no bonus transaction, no
`referrals` mutation; (b) a buyer who already has another completed
`purchase` transaction triggers nothing; (c) on the buyer's first completed
purchase with `referred_by` set (settings present with positive bonuses,
referrer wallet present and distinct from the buyer's), the referrer's and
the buyer's wallet balances are credited with the respective bonuses, one
completed `bonus` transaction is recorded for each, the buyer's `referrals`
row is flipped to `completed` with both bonus amounts and the first-purchase
timestamp, and the reported new balance includes the referee bonus. -/
theorem referral_bonus_exactly_once (now : Nat) (db : DB)
    (userId walletId txnId : Nat) (nb : Rat) :
    (∀ p, findProfile db userId = some p → p.referred_by = none →
      referralPhase now db userId walletId txnId nb =
        { db := db, new_balance := nb, referrer_bonus := some 0,
          referee_bonus := some 0 }) ∧
    (∀ p, findProfile db userId = some p →
      (db.transactions.any (fun t => t.user_id == userId && t.type == "purchase" &&
        t.status == "completed" && t.id != txnId)) = true →
      referralPhase now db userId walletId txnId nb =
        { db := db, new_balance := nb, referrer_bonus := some 0,
          referee_bonus := some 0 }) ∧
    (∀ p refId c rw bw,
      findProfile db userId = some p → p.referred_by = some refId →
      (db.transactions.any (fun t => t.user_id == userId && t.type == "purchase" &&
        t.status == "completed" && t.id != txnId)) = false →
      db.settings = some c →
      db.wallets.find? (fun x => x.user_id == refId) = some rw →
      db.wallets.find? (fun x => x.id == walletId) = some bw →
      rw.id ≠ walletId →
      0 < c.referralBonus.getD 500 →
      0 < c.referralBonusReferee.getD 500 →
      (referralPhase now db userId walletId txnId nb).new_balance =
        nb + c.referralBonusReferee.getD 500 ∧
      (referralPhase now db userId walletId txnId nb).referrer_bonus =
        some (c.referralBonus.getD 500) ∧
      (referralPhase now db userId walletId txnId nb).referee_bonus =
        some (c.referralBonusReferee.getD 500) ∧
      (((referralPhase now db userId walletId txnId nb).db.wallets.find?
          (fun x => x.user_id == refId)).map (fun x => x.balance) =
        some (rw.balance + c.referralBonus.getD 500)) ∧
      (((referralPhase now db userId walletId txnId nb).db.wallets.find?
          (fun x => x.id == walletId)).map (fun x => x.balance) =
        some (bw.balance + c.referralBonusReferee.getD 500)) ∧
      (∃ t1 ∈ (referralPhase now db userId walletId txnId nb).db.transactions,
        t1.user_id = refId ∧ t1.wallet_id = rw.id ∧ t1.type = "bonus" ∧
        t1.status = "completed" ∧ t1.amount = c.referralBonus.getD 500) ∧
      (∃ t2 ∈ (referralPhase now db userId walletId txnId nb).db.transactions,
        t2.user_id = userId ∧ t2.wallet_id = walletId ∧ t2.type = "bonus" ∧
        t2.status = "completed" ∧ t2.amount = c.referralBonusReferee.getD 500) ∧
      (referralPhase now db userId walletId txnId nb).db.referrals =
        db.referrals.map (fun r =>
          if r.referred_id == userId then
            { r with
                status := "completed"
                referrer_bonus := some (c.referralBonus.getD 500)
                referred_bonus := some (c.referralBonusReferee.getD 500)
                first_purchase_at := some now }
          else r)) := by
  refine ⟨?_, ?_, ?_⟩
  · intro p hp hr
    exact referralPhase_skip now db userId walletId txnId nb
      (fun p2 hp2 => by rw [hp] at hp2; cases hp2; exact hr)
  · intro p hp hany
    unfold referralPhase
    rw [hp]
    dsimp only
    cases hr : p.referred_by with
    | none => rfl
    | some refId =>
      rw [hany]
      rfl
  · intro p refId c rw bw hp hr hany hc hrw hbw hne hb1 hb2
    have hbwid : bw.id = walletId := by
      simpa using List.find?_some hbw
    have hbwne : (bw.id == rw.id) = false := by
      rw [beq_eq_false_iff_ne]
      rw [hbwid]
      exact fun habs => hne habs.symm
    have hrwne : (rw.id == walletId) = false := by
      rw [beq_eq_false_iff_ne]
      exact hne
    have hpos1 : ratOptPos (some (c.referralBonus.getD 500)) = true := by
      simp [ratOptPos, hb1]
    have hpos2 : ratOptPos (some (c.referralBonusReferee.getD 500)) = true := by
      simp [ratOptPos, hb2]
    unfold referralPhase
    rw [hp]
    dsimp only
    rw [hr]
    dsimp only
    rw [hany]
    rw [if_neg (show ¬(false = true) by simp)]
    rw [hc, hrw]
    simp only [Option.map_some', Option.getD_some]
    rw [hpos1]
    rw [if_pos rfl]
    rw [hpos2]
    rw [if_pos rfl]
    dsimp only
    refine ⟨rfl, trivial, trivial, ?_, ?_, ?_, ?_, ?_⟩
    · rw [find?_credit_pres (c.referralBonusReferee.getD 500) walletId
        (fun x => x.user_id == refId) (fun a b => rfl)]
      rw [find?_credit_pres (c.referralBonus.getD 500) rw.id
        (fun x => x.user_id == refId) (fun a b => rfl)]
      rw [hrw]
      simp [hne]
    · rw [find?_credit_pres (c.referralBonusReferee.getD 500) walletId
        (fun x => x.id == walletId) (fun a b => rfl)]
      rw [find?_credit_pres (c.referralBonus.getD 500) rw.id
        (fun x => x.id == walletId) (fun a b => rfl)]
      rw [hbw]
      simp [hbwid, Ne.symm hne]
    · refine ⟨_, List.mem_append_left _ (List.mem_append_right _
        (List.mem_cons_self _ _)), rfl, rfl, rfl, rfl, rfl⟩
    · refine ⟨_, List.mem_append_right _ (List.mem_cons_self _ _),
        rfl, rfl, rfl, rfl, rfl⟩
    · rfl


/-- Settings row granting a 1000 referrer bonus and a 700 referee bonus. -/
def refCfg : Settings := { referralBonus := some 1000, referralBonusReferee := some 700 }

/-- A buyer profile referred by user 30. -/
def refProf : Profile := { id := 20, referred_by := some 30 }

/-- Referrer wallet. -/
def refWallet : Wallet := { id := 9, user_id := 30, balance := 2000 }

/-- Buyer wallet. -/
def buyerWallet : Wallet := { id := 4, user_id := 20, balance := 500 }

/-- Store for the referral witness: referred buyer, pending referral row, no
prior purchases. -/
def refDb : DB := {
  profiles := [refProf],
  wallets := [refWallet, buyerWallet],
  referrals := [{ id := 55, referrer_id := 30, referred_id := 20 }],
  settings := some refCfg }

/-- Witness for `referral_bonus_exactly_once` part (c) at a concrete store:
the first completed purchase of referred buyer 20 credits referrer wallet 9
with 1000, buyer wallet 4 with 700, records one bonus transaction each and
completes the referral row. -/
theorem referral_bonus_exactly_once_witness :
    (referralPhase 100 refDb 20 4 77 250).new_balance =
      250 + refCfg.referralBonusReferee.getD 500 ∧
    (referralPhase 100 refDb 20 4 77 250).referrer_bonus =
      some (refCfg.referralBonus.getD 500) ∧
    (referralPhase 100 refDb 20 4 77 250).referee_bonus =
      some (refCfg.referralBonusReferee.getD 500) ∧
    (((referralPhase 100 refDb 20 4 77 250).db.wallets.find?
        (fun x => x.user_id == 30)).map (fun x => x.balance) =
      some (refWallet.balance + refCfg.referralBonus.getD 500)) ∧
    (((referralPhase 100 refDb 20 4 77 250).db.wallets.find?
        (fun x => x.id == 4)).map (fun x => x.balance) =
      some (buyerWallet.balance + refCfg.referralBonusReferee.getD 500)) ∧
    (∃ t1 ∈ (referralPhase 100 refDb 20 4 77 250).db.transactions,
      t1.user_id = 30 ∧ t1.wallet_id = refWallet.id ∧ t1.type = "bonus" ∧
      t1.status = "completed" ∧ t1.amount = refCfg.referralBonus.getD 500) ∧
    (∃ t2 ∈ (referralPhase 100 refDb 20 4 77 250).db.transactions,
      t2.user_id = 20 ∧ t2.wallet_id = 4 ∧ t2.type = "bonus" ∧
      t2.status = "completed" ∧ t2.amount = refCfg.referralBonusReferee.getD 500) ∧
    (referralPhase 100 refDb 20 4 77 250).db.referrals =
      refDb.referrals.map (fun r =>
        if r.referred_id == 20 then
          { r with
              status := "completed"
              referrer_bonus := some (refCfg.referralBonus.getD 500)
              referred_bonus := some (refCfg.referralBonusReferee.getD 500)
              first_purchase_at := some 100 }
        else r) :=
  (referral_bonus_exactly_once 100 refDb 20 4 77 250).2.2 refProf 30 refCfg
    refWallet buyerWallet (by decide) (by decide) (by decide) (by decide)
    (by decide) (by decide) (by decide) (by decide) (by decide)


/-- Draw used by the payout / winner witnesses: 2 of 10 tickets sold at 500. -/
def payoutDraw : Draw := {
  id := 1, vendor_id := 10, ticket_price := 500,
  total_tickets := 10, sold_tickets := 2, draw_type := "timer", status := "active" }

/-- The vendor wallet of `payoutDraw`. -/
def payoutWallet : Wallet := { id := 3, user_id := 10, vendor_balance := 200 }

/-- Store for the payout / winner witnesses: one active draw with two sold
tickets (ids 7 and 8, owners 20 and 21) and the vendor wallet. -/
def payoutDb : DB := {
  wallets := [payoutWallet],
  draws := [payoutDraw],
  tickets := [{ id := 7, draw_id := 1, user_id := 20 },
              { id := 8, draw_id := 1, user_id := 21 }] }

/-- Witness for `payout_conservation` at `payoutDb`: executing draw 1 splits
the 1000 revenue into fee plus payout exactly, with the default 15 percent
fee, and credits the vendor balance. -/
theorem payout_conservation_witness :
    ∃ info db2,
      executeDraw (fun n => n) 100 payoutDb 1 = (.success info, db2) ∧
      info.platform_fee + info.vendor_payout =
        (payoutDraw.sold_tickets : Rat) * payoutDraw.ticket_price ∧
      info.platform_fee = (payoutDraw.sold_tickets : Rat) * payoutDraw.ticket_price *
        (resolvePlatformFeePercent payoutDb.settings / 100) ∧
      vendorBalanceOf db2 payoutDraw.vendor_id =
        some (payoutWallet.vendor_balance + info.vendor_payout) ∧
      (∃ t ∈ db2.transactions, t.user_id = payoutDraw.vendor_id ∧ t.type = "payout" ∧
        t.status = "completed" ∧ t.amount = info.vendor_payout) ∧
      (∃ a ∈ db2.audit_log, a.event_type = "draw_executed" ∧
        a.platform_fee = some info.platform_fee ∧
        a.vendor_payout = some info.vendor_payout ∧
        a.total_revenue = some ((payoutDraw.sold_tickets : Rat) * payoutDraw.ticket_price)) ∧
      resolvePlatformFeePercent none = 15 ∧
      (∀ c : Settings, resolvePlatformFeePercent (some c) = c.platformFee.getD 15) :=
  payout_conservation (fun n => n) 100 payoutDb 1 payoutDraw payoutWallet
    (by decide) (by decide) (by decide) (by decide) (by decide) (by decide)

/-- Witness for `winner_validity` at `payoutDb`: the executed draw completes
with a winner owning one of its two tickets, exactly one ticket flagged
winner, and re-execution rejected without changing the store. -/
theorem winner_validity_witness :
    ∃ info db2,
      executeDraw (fun n => n) 100 payoutDb 1 = (.success info, db2) ∧
      (∃ t ∈ payoutDb.tickets, t.draw_id = 1 ∧ info.winning_ticket_id = t.id ∧
        info.winner_id = t.user_id) ∧
      ((findDraw db2 1).map (fun x => (x.status, x.winner_id, x.winning_ticket_id)) =
        some ("completed", some info.winner_id, some info.winning_ticket_id)) ∧
      ((db2.tickets.filter (fun t => t.draw_id == 1 && t.is_winner)).length = 1) ∧
      (∀ h9 now9, executeDraw h9 now9 db2 1 =
        (.failure "Draw already completed", db2)) :=
  winner_validity (fun n => n) 100 payoutDb 1 payoutDraw (by decide) (by decide)
    (by decide) (by decide) (by decide) (by decide) (by decide)

end LuckyBasket
